import Mathlib

/-!
Verification development for the face-liveness repository.

The embedding below translates the verification core of the repository —
landmark geometry (utils/landmarks.ts, utils/ear.ts, utils/pose.ts),
signal smoothing (utils/smoothing.ts), the anti-spoof analyzer
(utils/antiSpoof.ts) and the liveness state machine
(hooks/useLivenessStateMachine.ts, types/liveness.ts) — into Lean.

Modelling conventions:
* JavaScript numbers are modelled as rationals.  All arithmetic in the
  embedded definitions goes through the kernel-computable wrappers
  qadd, qsub, qmul, qdiv, qneg and qsum defined first; each wrapper is
  proved equal to the corresponding Mathlib field operation, so symbolic
  proofs can rewrite to ordinary arithmetic while concrete runs still
  evaluate by decide.
* Math.sqrt is modelled by sqrtQ, an integer-square-root construction
  that is exact on perfect squares; every concrete input evaluated in
  this file takes sqrtQ only at perfect squares, and no theorem depends
  on its value elsewhere.  Math.atan2 is modelled by atan2Q, exact on a
  level eye line (second argument positive, first zero); no theorem
  depends on the numeric value of a nonzero roll angle.
* Division by zero yields 0 (ℚ convention) where JavaScript would give
  Infinity or NaN; every such site in the source is either guarded
  (EAR, yaw, pitch) or unreachable on the inputs considered here.
* The React hook keeps mutable refs (smoothed EAR, current metrics,
  anti-spoof state) next to the React state; a Session bundles both.
  setState updaters are modelled as synchronous state transformations.
  The setTimeout-deferred step transition in completeStep is modelled
  explicitly: completeStep enqueues the next step on pendingSteps and a
  separate timerFire event performs the deferred enterStep, exactly as
  the browser event loop interleaves frames and timers.
* Date.now() is modelled by threading a time argument through the
  frame-processing functions.
* Sound playback, the success-callback payload, and UI helpers have no
  effect on the machine state and are not modelled.
-/

/-- Kernel-computable addition on ℚ (the Mathlib field operations do not
reduce under the kernel; these wrappers do, and are proved equal below). -/
def qadd (a b : ℚ) : ℚ := Rat.divInt (a.num * b.den + b.num * a.den) (a.den * b.den)

/-- Kernel-computable subtraction on ℚ. -/
def qsub (a b : ℚ) : ℚ := Rat.divInt (a.num * b.den - b.num * a.den) (a.den * b.den)

/-- Kernel-computable multiplication on ℚ. -/
def qmul (a b : ℚ) : ℚ := Rat.divInt (a.num * b.num) (a.den * b.den)

/-- Kernel-computable division on ℚ; division by zero yields 0. -/
def qdiv (a b : ℚ) : ℚ := Rat.divInt (a.num * b.den) (a.den * b.num)

/-- Kernel-computable negation on ℚ. -/
def qneg (a : ℚ) : ℚ := Rat.divInt (-a.num) a.den

/-- Kernel-computable sum of a list of rationals, folded from the left like
the JavaScript reduce((sum, v) => sum + v, 0). -/
def qsum (values : List ℚ) : ℚ := values.foldl qadd 0

theorem qadd_eq (a b : ℚ) : qadd a b = a + b := by
  have ha : (a.den : ℚ) ≠ 0 := Nat.cast_ne_zero.mpr a.den_nz
  have hb : (b.den : ℚ) ≠ 0 := Nat.cast_ne_zero.mpr b.den_nz
  rw [qadd, Rat.divInt_eq_div]
  conv_rhs => rw [← Rat.num_div_den a, ← Rat.num_div_den b]
  rw [div_add_div _ _ ha hb]
  push_cast
  ring_nf

theorem qsub_eq (a b : ℚ) : qsub a b = a - b := by
  have ha : (a.den : ℚ) ≠ 0 := Nat.cast_ne_zero.mpr a.den_nz
  have hb : (b.den : ℚ) ≠ 0 := Nat.cast_ne_zero.mpr b.den_nz
  rw [qsub, Rat.divInt_eq_div]
  conv_rhs => rw [← Rat.num_div_den a, ← Rat.num_div_den b]
  rw [div_sub_div _ _ ha hb]
  push_cast
  ring_nf

theorem qmul_eq (a b : ℚ) : qmul a b = a * b := by
  have ha : (a.den : ℚ) ≠ 0 := Nat.cast_ne_zero.mpr a.den_nz
  have hb : (b.den : ℚ) ≠ 0 := Nat.cast_ne_zero.mpr b.den_nz
  rw [qmul, Rat.divInt_eq_div]
  conv_rhs => rw [← Rat.num_div_den a, ← Rat.num_div_den b]
  rw [div_mul_div_comm]
  push_cast
  ring_nf

theorem qdiv_eq (a b : ℚ) : qdiv a b = a / b := by
  by_cases hb0 : b = 0
  · subst hb0; simp [qdiv, Rat.divInt_eq_div]
  · have ha : (a.den : ℚ) ≠ 0 := Nat.cast_ne_zero.mpr a.den_nz
    have hb : (b.den : ℚ) ≠ 0 := Nat.cast_ne_zero.mpr b.den_nz
    have hbn : (b.num : ℚ) ≠ 0 := by simpa using Rat.num_ne_zero.mpr hb0
    rw [qdiv, Rat.divInt_eq_div]
    conv_rhs => rw [← Rat.num_div_den a, ← Rat.num_div_den b]
    push_cast
    field_simp

theorem qneg_eq (a : ℚ) : qneg a = -a := by
  have ha : (a.den : ℚ) ≠ 0 := Nat.cast_ne_zero.mpr a.den_nz
  rw [qneg, Rat.divInt_eq_div]
  conv_rhs => rw [← Rat.num_div_den a]
  push_cast
  ring_nf

theorem qsum_cons (a : ℚ) (l : List ℚ) : qsum (a :: l) = a + qsum l := by
  have step : ∀ (l : List ℚ) (x y : ℚ),
      List.foldl qadd (x + y) l = x + List.foldl qadd y l := by
    intro l
    induction l with
    | nil => intro x y; rfl
    | cons c t ih =>
      intro x y
      simp only [List.foldl_cons, qadd_eq]
      rw [add_assoc, ih]
  simp only [qsum, List.foldl_cons, qadd_eq, zero_add]
  have := step l a 0
  simpa using this

theorem qsum_nil : qsum ([] : List ℚ) = 0 := rfl

theorem qsum_replicate (n : ℕ) (a : ℚ) : qsum (List.replicate n a) = n * a := by
  induction n with
  | zero => simp [qsum_nil]
  | succ k ih =>
    rw [List.replicate_succ, qsum_cons, ih]
    push_cast
    ring

/-- Fuel-driven integer square root (Newton iteration), structurally
recursive so that the kernel can evaluate it. -/
def isqrtAux (n : ℕ) : ℕ → ℕ → ℕ
  | 0, guess => guess
  | fuel + 1, guess =>
    let next := (guess + n / guess) / 2
    if next < guess then isqrtAux n fuel next else guess

/-- Integer square root (floor), kernel-computable. -/
def isqrt (n : ℕ) : ℕ := if n ≤ 1 then n else isqrtAux n n (n / 2)

/-- Model of JavaScript Math.sqrt on the rationals: floor-style integer
square roots of numerator and denominator.  Exact on perfect squares,
which are the only arguments whose value any theorem below depends on;
negative arguments (NaN in JavaScript) do not occur on the paths
considered. -/
def sqrtQ (q : ℚ) : ℚ := mkRat (isqrt q.num.toNat) (isqrt q.den)

/-- Model of JavaScript Math.atan2 restricted to the region exercised
here: for a level line (y = 0) with x positive the angle is 0, as in
JavaScript (atan2 0 0 = 0 as well).  Other inputs are mapped
sign-faithfully (small-angle ratio for x positive, a magnitude beyond
any roll threshold otherwise); no theorem depends on the numeric value
of a nonzero angle. -/
def atan2Q (y x : ℚ) : ℚ :=
  if 0 < x then qdiv y x
  else if y < 0 then mkRat (-2) 1
  else if 0 < y then 2
  else if x < 0 then 3
  else 0

/-! ## Data model (types/liveness.ts) -/

/-- Liveness step identifiers (types/liveness.ts, LivenessStep). -/
inductive LivenessStep where
  | IDLE
  | ALIGN
  | BLINK
  | TURN_LEFT
  | TURN_RIGHT
  | TURN_UP
  | TURN_DOWN
  | SUCCESS
deriving DecidableEq, Repr

/-- Canonical step list (types/liveness.ts, STEP_ORDER). -/
def STEP_ORDER : List LivenessStep :=
  [LivenessStep.ALIGN, LivenessStep.BLINK, LivenessStep.TURN_LEFT,
   LivenessStep.TURN_RIGHT, LivenessStep.TURN_UP, LivenessStep.TURN_DOWN]

/-- Eye-state classification values (utils/ear.ts, getEyeState result). -/
inductive EyeState where
  | OPEN
  | CLOSED
  | UNKNOWN
deriving DecidableEq, Repr

/-- One detected keypoint: x, y in pixels and optional z depth. -/
structure Keypoint where
  x : ℚ
  y : ℚ
  z : Option ℚ
deriving DecidableEq, Repr

/-- A detected face: the keypoint array delivered by the detector. -/
structure Face where
  keypoints : List Keypoint
deriving DecidableEq, Repr

/-- A 3-component landmark as returned by getLandmark. -/
structure Point3 where
  x : ℚ
  y : ℚ
  z : ℚ
deriving DecidableEq, Repr

/-- Axis-aligned bounding box (types/liveness.ts, BoundingBox). -/
structure BoundingBox where
  x : ℚ
  y : ℚ
  width : ℚ
  height : ℚ
deriving DecidableEq, Repr

/-- Per-eye and averaged EAR values (utils/ear.ts, calculateAverageEAR). -/
structure EarData where
  left : ℚ
  right : ℚ
  avg : ℚ
deriving DecidableEq, Repr

/-- Normalized pose metrics (utils/pose.ts, PoseMetrics). -/
structure PoseMetrics where
  yawMetric : ℚ
  pitchMetric : ℚ
  rollMetric : ℚ
  faceWidth : ℚ
  faceHeight : ℚ
deriving DecidableEq, Repr

/-- Baseline captured at ALIGN completion (types/liveness.ts). -/
structure BaselineMetrics where
  yawMetric : ℚ
  pitchMetric : ℚ
  rollMetric : ℚ
  faceWidth : ℚ
  faceHeight : ℚ
  openEAR : ℚ
deriving DecidableEq, Repr

/-- Per-frame face metrics (types/liveness.ts, FaceMetrics). -/
structure FaceMetrics where
  boundingBox : BoundingBox
  yawMetric : ℚ
  pitchMetric : ℚ
  rollMetric : ℚ
  faceWidth : ℚ
  faceHeight : ℚ
  leftEAR : ℚ
  rightEAR : ℚ
  avgEAR : ℚ
deriving DecidableEq, Repr

/-- Blink-gate state (types/liveness.ts, BlinkState). -/
structure BlinkState where
  isCalibrating : Bool
  calibrationFrames : ℕ
  earSamples : List ℚ
  openEARBaseline : ℚ
  closedThreshold : ℚ
  eyeState : EyeState
  closedFrameCount : ℕ
  openFrameCount : ℕ
  blinkDetected : Bool
  lastBlinkTime : ℚ
deriving DecidableEq, Repr

/-- Head-pose-gate state (types/liveness.ts, HeadPoseState). -/
structure HeadPoseState where
  heldFrames : ℕ
  targetReached : Bool
deriving DecidableEq, Repr

/-- Top-level machine state (types/liveness.ts, LivenessState; the
stepOrder field is kept on the state as the hook uses it). -/
structure LivenessState where
  currentStep : LivenessStep
  stepOrder : List LivenessStep
  stepEnteredAt : ℚ
  stepCompletedAt : Option ℚ
  alignedFrameCount : ℕ
  baselineMetrics : Option BaselineMetrics
  blinkState : BlinkState
  headPoseState : HeadPoseState
  yawDeltas : List ℚ
  pitchDeltas : List ℚ
  completedSteps : List LivenessStep
  isComplete : Bool
  error : Option String
deriving DecidableEq, Repr

/-! ## Configuration constants (types/liveness.ts CONFIG and
utils/antiSpoof.ts ANTI_SPOOF_CONFIG).  Decimal source values are
written as explicit fractions. -/

def ALIGN_REQUIRED_FRAMES : ℕ := 12

def INSIDE_GUIDE_MARGIN : ℚ := mkRat 1 20

def BLINK_CALIBRATION_FRAMES : ℕ := 15

def CLOSED_THRESHOLD_RATIO : ℚ := mkRat 13 20

def CLOSED_FRAME_THRESHOLD : ℕ := 2

def OPEN_FRAME_THRESHOLD : ℕ := 2

def BLINK_COOLDOWN_MS : ℚ := 600

def EMA_ALPHA : ℚ := mkRat 3 10

def YAW_THRESHOLD : ℚ := mkRat 9 100

def PITCH_THRESHOLD : ℚ := mkRat 7 100

def ROLL_WARNING_THRESHOLD : ℚ := mkRat 3 20

def POSE_HELD_FRAMES : ℕ := 4

def STEP_COOLDOWN_MS : ℚ := 500

def MIN_FACE_RATIO : ℚ := mkRat 3 10

def MAX_FACE_RATIO : ℚ := mkRat 19 20

def MAX_HISTORY_FRAMES : ℕ := 30

def MIN_FRAMES_FOR_CHECK : ℕ := 10

def MIN_DEPTH_VARIANCE : ℚ := mkRat 1 2

def DEPTH_CHECK_WEIGHT : ℚ := mkRat 2 5

def MIN_MICRO_MOVEMENT : ℚ := mkRat 3 10

def MOVEMENT_CHECK_WEIGHT : ℚ := mkRat 3 10

def MAX_STATIC_FRAMES : ℕ := 20

def STATIC_CHECK_WEIGHT : ℚ := mkRat 3 10

def SPOOF_THRESHOLD : ℚ := mkRat 3 5

/-! ## Landmark geometry (utils/landmarks.ts) -/

/-- Landmark index constants used by the core (utils/landmarks.ts,
LANDMARK_INDICES). -/
def NOSE_TIP : ℤ := 1

def LEFT_EYE_INNER : ℤ := 133

def LEFT_EYE_OUTER : ℤ := 33

def RIGHT_EYE_INNER : ℤ := 362

def RIGHT_EYE_OUTER : ℤ := 263

def LEFT_CHEEK : ℤ := 234

def RIGHT_CHEEK : ℤ := 454

def CHIN : ℤ := 152

def FOREHEAD : ℤ := 10

/-- Direct translation of getLandmark (utils/landmarks.ts): out-of-range
indices yield [0, 0, 0]; an undefined z coordinate is replaced by 0. -/
def getLandmark (face : Face) (index : ℤ) : Point3 :=
  if 0 ≤ index ∧ index < (face.keypoints.length : ℤ) then
    let kp := face.keypoints.getD index.toNat ⟨0, 0, none⟩
    ⟨kp.x, kp.y, kp.z.getD 0⟩
  else
    ⟨0, 0, 0⟩

/-- Translation of calculateBoundingBox (utils/landmarks.ts).  The
JavaScript loop folds min/max starting from ±Infinity; over a nonempty
keypoint list this equals folding from the first element.  The empty
case (never produced by the detector, which emits 468 keypoints) is
mapped to the zero box. -/
def calculateBoundingBox (face : Face) : BoundingBox :=
  match face.keypoints with
  | [] => ⟨0, 0, 0, 0⟩
  | kp :: rest =>
    let minX := rest.foldl (fun m p => min m p.x) kp.x
    let minY := rest.foldl (fun m p => min m p.y) kp.y
    let maxX := rest.foldl (fun m p => max m p.x) kp.x
    let maxY := rest.foldl (fun m p => max m p.y) kp.y
    ⟨minX, minY, qsub maxX minX, qsub maxY minY⟩

/-- Translation of isFaceInsideGuide (utils/landmarks.ts). -/
def isFaceInsideGuide (faceBbox guideBox : BoundingBox) (margin : ℚ) : Bool :=
  let marginX := qmul guideBox.width margin
  let marginY := qmul guideBox.height margin
  decide (qsub guideBox.x marginX ≤ faceBbox.x) &&
  decide (qsub guideBox.y marginY ≤ faceBbox.y) &&
  decide (qadd faceBbox.x faceBbox.width ≤ qadd (qadd guideBox.x guideBox.width) marginX) &&
  decide (qadd faceBbox.y faceBbox.height ≤ qadd (qadd guideBox.y guideBox.height) marginY)

/-! ## Eye aspect ratio (utils/ear.ts) -/

/-- Translation of calculateSingleEyeEAR (utils/ear.ts):
EAR = (|p2-p6| + |p3-p5|) / (2 |p1-p4|), 0 when the horizontal distance
vanishes. -/
def calculateSingleEyeEAR (p1 p2 p3 p4 p5 p6 : Point3) : ℚ :=
  let v1 := sqrtQ (qadd (qmul (qsub p2.x p6.x) (qsub p2.x p6.x))
                        (qmul (qsub p2.y p6.y) (qsub p2.y p6.y)))
  let v2 := sqrtQ (qadd (qmul (qsub p3.x p5.x) (qsub p3.x p5.x))
                        (qmul (qsub p3.y p5.y) (qsub p3.y p5.y)))
  let h := sqrtQ (qadd (qmul (qsub p1.x p4.x) (qsub p1.x p4.x))
                       (qmul (qsub p1.y p4.y) (qsub p1.y p4.y)))
  if h = 0 then 0 else qdiv (qadd v1 v2) (qmul 2 h)

/-- Translation of calculateLeftEAR (utils/ear.ts). -/
def calculateLeftEAR (face : Face) : ℚ :=
  calculateSingleEyeEAR (getLandmark face 33) (getLandmark face 160)
    (getLandmark face 158) (getLandmark face 133)
    (getLandmark face 153) (getLandmark face 144)

/-- Translation of calculateRightEAR (utils/ear.ts). -/
def calculateRightEAR (face : Face) : ℚ :=
  calculateSingleEyeEAR (getLandmark face 263) (getLandmark face 387)
    (getLandmark face 385) (getLandmark face 362)
    (getLandmark face 380) (getLandmark face 373)

/-- Translation of calculateAverageEAR (utils/ear.ts). -/
def calculateAverageEAR (face : Face) : EarData :=
  let left := calculateLeftEAR face
  let right := calculateRightEAR face
  ⟨left, right, qdiv (qadd left right) 2⟩

/-- Translation of getEyeState (utils/ear.ts): UNKNOWN when the open
baseline is 0, otherwise CLOSED below baseline times the closed ratio
and OPEN at or above it. -/
def getEyeState (currentEAR openBaseline : ℚ) ( closedThresholdRatio : ℚ) : EyeState :=
  if openBaseline = 0 then EyeState.UNKNOWN
  else
    let threshold := qmul openBaseline closedThresholdRatio
    if currentEAR < threshold then EyeState.CLOSED else EyeState.OPEN

/-! ## Smoothing (utils/smoothing.ts) -/

/-- Translation of ema (utils/smoothing.ts): cold-start identity when the
previous value is 0 (the NaN guard has no rational counterpart). -/
def ema (current previous alpha : ℚ) : ℚ :=
  if previous = 0 then current
  else qadd (qmul alpha current) (qmul (qsub 1 alpha) previous)

/-- Translation of sma (utils/smoothing.ts). -/
def sma (values : List ℚ) : ℚ :=
  if values = [] then 0 else qdiv (qsum values) (values.length : ℚ)

/-! ## Head pose (utils/pose.ts) -/

/-- Translation of calculateYawMetric (utils/pose.ts). -/
def calculateYawMetric (face : Face) : ℚ :=
  let noseTip := getLandmark face NOSE_TIP
  let leftCheek := getLandmark face LEFT_CHEEK
  let rightCheek := getLandmark face RIGHT_CHEEK
  let midCheekX := qdiv (qadd leftCheek.x rightCheek.x) 2
  let faceWidth := |qsub rightCheek.x leftCheek.x|
  if faceWidth = 0 then 0
  else qneg (qdiv (qsub noseTip.x midCheekX) faceWidth)

/-- Translation of calculatePitchMetric (utils/pose.ts). -/
def calculatePitchMetric (face : Face) : ℚ :=
  let noseTip := getLandmark face NOSE_TIP
  let leftEyeInner := getLandmark face LEFT_EYE_INNER
  let rightEyeInner := getLandmark face RIGHT_EYE_INNER
  let chin := getLandmark face CHIN
  let forehead := getLandmark face FOREHEAD
  let eyeLineY := qdiv (qadd leftEyeInner.y rightEyeInner.y) 2
  let faceHeight := |qsub chin.y forehead.y|
  if faceHeight = 0 then 0
  else qdiv (qsub noseTip.y eyeLineY) faceHeight

/-- Translation of calculateRollMetric (utils/pose.ts); the arctangent is
taken through the atan2Q model and normalized by 0.52. -/
def calculateRollMetric (face : Face) : ℚ :=
  let leftEyeOuter := getLandmark face LEFT_EYE_OUTER
  let rightEyeOuter := getLandmark face RIGHT_EYE_OUTER
  let dx := qsub rightEyeOuter.x leftEyeOuter.x
  let dy := qsub rightEyeOuter.y leftEyeOuter.y
  let rollAngle := atan2Q dy dx
  qdiv rollAngle (mkRat 13 25)

/-- Translation of calculatePoseMetrics (utils/pose.ts). -/
def calculatePoseMetrics (face : Face) : PoseMetrics :=
  let bbox := calculateBoundingBox face
  ⟨calculateYawMetric face, calculatePitchMetric face,
   calculateRollMetric face, bbox.width, bbox.height⟩

/-- Translation of getYawDelta (utils/pose.ts). -/
def getYawDelta (current baseline : ℚ) : ℚ := qsub current baseline

/-- Translation of getPitchDelta (utils/pose.ts). -/
def getPitchDelta (current baseline : ℚ) : ℚ := qsub current baseline

/-- Translation of isRollAcceptable (utils/pose.ts). -/
def isRollAcceptable (rollMetric threshold : ℚ) : Bool :=
  decide (|rollMetric| ≤ threshold)

/-! ## Anti-spoof analyzer (utils/antiSpoof.ts) -/

/-- Rolling per-frame summary (utils/antiSpoof.ts, FrameSnapshot). -/
structure FrameSnapshot where
  timestamp : ℚ
  centerX : ℚ
  centerY : ℚ
  faceWidth : ℚ
  avgZ : ℚ
  zVariance : ℚ
deriving DecidableEq, Repr

/-- Analyzer state (utils/antiSpoof.ts, AntiSpoofState). -/
structure AntiSpoofState where
  frameHistory : List FrameSnapshot
  depthVariances : List ℚ
  movementScores : List ℚ
  spoofScore : ℚ
  isSpoof : Bool
  reason : Option String
deriving DecidableEq, Repr

/-- Result of one analysis pass (utils/antiSpoof.ts, the anonymous record
returned by analyzeSpoof). -/
structure SpoofAssessment where
  spoofScore : ℚ
  isSpoof : Bool
  reason : Option String
deriving DecidableEq, Repr

/-- Translation of createAntiSpoofState (utils/antiSpoof.ts). -/
def createAntiSpoofState : AntiSpoofState :=
  ⟨[], [], [], 0, false, none⟩

/-- Translation of calculateDepthVariance (utils/antiSpoof.ts): population
standard deviation of the defined z coordinates, 0 when fewer than 50
keypoints carry depth. -/
def calculateDepthVariance (face : Face) : ℚ :=
  let zValues := face.keypoints.filterMap (fun kp => kp.z)
  if zValues.length < 50 then 0
  else
    let avgZ := qdiv (qsum zValues) (zValues.length : ℚ)
    let variance :=
      qdiv (zValues.foldl (fun s z => qadd s (qmul (qsub z avgZ) (qsub z avgZ))) 0)
        (zValues.length : ℚ)
    sqrtQ variance

/-- Translation of calculateAverageZ (utils/antiSpoof.ts). -/
def calculateAverageZ (face : Face) : ℚ :=
  let zValues := face.keypoints.filterMap (fun kp => kp.z)
  if zValues.length = 0 then 0
  else qdiv (qsum zValues) (zValues.length : ℚ)

/-- Translation of calculateMicroMovement (utils/antiSpoof.ts). -/
def calculateMicroMovement (current previous : FrameSnapshot) : ℚ :=
  let dx := |qsub current.centerX previous.centerX|
  let dy := |qsub current.centerY previous.centerY|
  let dWidth := |qsub current.faceWidth previous.faceWidth|
  let dZ := |qsub current.avgZ previous.avgZ|
  let normalizedMovement := qdiv (qadd dx dy) current.faceWidth
  let normalizedScale := qdiv dWidth current.faceWidth
  let normalizedDepth := qmul dZ 10
  qadd (qadd normalizedMovement normalizedScale) normalizedDepth

/-- Translation of createFrameSnapshot (utils/antiSpoof.ts); Date.now() is
passed in as now.  The JavaScript min/max loop starts from ±Infinity,
which over a nonempty keypoint list equals folding from the first
element; the empty case (never produced by the detector) maps to zeros. -/
def createFrameSnapshot (now : ℚ) (face : Face) : FrameSnapshot :=
  match face.keypoints with
  | [] => ⟨now, 0, 0, 0, calculateAverageZ face, calculateDepthVariance face⟩
  | kp :: rest =>
    let minX := rest.foldl (fun m p => min m p.x) kp.x
    let maxX := rest.foldl (fun m p => max m p.x) kp.x
    let sumX := face.keypoints.foldl (fun s p => qadd s p.x) 0
    let sumY := face.keypoints.foldl (fun s p => qadd s p.y) 0
    { timestamp := now
      centerX := qdiv sumX (face.keypoints.length : ℚ)
      centerY := qdiv sumY (face.keypoints.length : ℚ)
      faceWidth := qsub maxX minX
      avgZ := calculateAverageZ face
      zVariance := calculateDepthVariance face }

/-- Translation of analyzeSpoof (utils/antiSpoof.ts): three independent
indicators, each contributing its fixed weight when triggered; the first
triggered reason (in check order) is surfaced. -/
def analyzeSpoof (depthVariances movementScores : List ℚ) : SpoofAssessment :=
  let avgDepthVariance := qdiv (qsum depthVariances) (depthVariances.length : ℚ)
  let depthTriggered : Bool := decide (avgDepthVariance < MIN_DEPTH_VARIANCE)
  let avgMovement := qdiv (qsum movementScores) (movementScores.length : ℚ)
  let movementTriggered : Bool :=
    decide (5 < movementScores.length) &&
      decide (avgMovement < qdiv MIN_MICRO_MOVEMENT 100)
  let recentMovements := movementScores.drop (movementScores.length - MAX_STATIC_FRAMES)
  let staticFrames := (recentMovements.filter (fun m => decide (m < mkRat 1 1000))).length
  let staticTriggered : Bool :=
    decide (MAX_STATIC_FRAMES ≤ movementScores.length) &&
      decide (qmul (MAX_STATIC_FRAMES : ℚ) (mkRat 4 5) < (staticFrames : ℚ))
  let totalScore :=
    qadd (qadd (if depthTriggered then DEPTH_CHECK_WEIGHT else 0)
               (if movementTriggered then MOVEMENT_CHECK_WEIGHT else 0))
         (if staticTriggered then STATIC_CHECK_WEIGHT else 0)
  let reasons : List String :=
    (if depthTriggered then ["Flat face detected (no depth)"] else []) ++
    (if movementTriggered then ["No natural micro-movements"] else []) ++
    (if staticTriggered then ["Face too static"] else [])
  { spoofScore := totalScore
    isSpoof := decide (SPOOF_THRESHOLD ≤ totalScore)
    reason := reasons.head? }

/-- Translation of updateAntiSpoofState (utils/antiSpoof.ts): append the
snapshot, depth variance and (from the second frame on) movement score
to the bounded histories; run the analysis only once the history holds
MIN_FRAMES_FOR_CHECK frames, otherwise keep the verdict fields. -/
def updateAntiSpoofState (now : ℚ) (state : AntiSpoofState) (face : Face) : AntiSpoofState :=
  let snapshot := createFrameSnapshot now face
  let newHistory0 := state.frameHistory ++ [snapshot]
  let newHistory :=
    if MAX_HISTORY_FRAMES < newHistory0.length then newHistory0.tail else newHistory0
  let newDepthVariances0 := state.depthVariances ++ [snapshot.zVariance]
  let newDepthVariances :=
    if MAX_HISTORY_FRAMES < newDepthVariances0.length then newDepthVariances0.tail
    else newDepthVariances0
  let newMovementScores :=
    match state.frameHistory.getLast? with
    | some prevSnapshot =>
      let appended := state.movementScores ++ [calculateMicroMovement snapshot prevSnapshot]
      if MAX_HISTORY_FRAMES < appended.length then appended.tail else appended
    | none => state.movementScores
  if newHistory.length < MIN_FRAMES_FOR_CHECK then
    { state with
      frameHistory := newHistory
      depthVariances := newDepthVariances
      movementScores := newMovementScores }
  else
    let assessed := analyzeSpoof newDepthVariances newMovementScores
    { frameHistory := newHistory
      depthVariances := newDepthVariances
      movementScores := newMovementScores
      spoofScore := assessed.spoofScore
      isSpoof := assessed.isSpoof
      reason := assessed.reason }

/-- Translation of resetAntiSpoofState (utils/antiSpoof.ts). -/
def resetAntiSpoofState : AntiSpoofState := createAntiSpoofState

/-! ## Liveness state machine (hooks/useLivenessStateMachine.ts) -/

/-- Initial blink-gate state (useLivenessStateMachine.ts,
initialBlinkState). -/
def initialBlinkState : BlinkState :=
  { isCalibrating := true
    calibrationFrames := 0
    earSamples := []
    openEARBaseline := 0
    closedThreshold := 0
    eyeState := EyeState.UNKNOWN
    closedFrameCount := 0
    openFrameCount := 0
    blinkDetected := false
    lastBlinkTime := 0 }

/-- Initial head-pose-gate state (useLivenessStateMachine.ts,
initialHeadPoseState). -/
def initialHeadPoseState : HeadPoseState :=
  { heldFrames := 0, targetReached := false }

/-- Initial machine state (useLivenessStateMachine.ts, initialState). -/
def initialState : LivenessState :=
  { currentStep := LivenessStep.IDLE
    stepOrder := STEP_ORDER
    stepEnteredAt := 0
    stepCompletedAt := none
    alignedFrameCount := 0
    baselineMetrics := none
    blinkState := initialBlinkState
    headPoseState := initialHeadPoseState
    yawDeltas := []
    pitchDeltas := []
    completedSteps := []
    isComplete := false
    error := none }

/-- The hook state: the React state plus the mutable refs
(smoothedEARRef, currentMetricsRef, antiSpoofRef) and the queue of step
transitions scheduled by setTimeout in completeStep but not yet fired. -/
structure Session where
  state : LivenessState
  smoothedEAR : ℚ
  currentMetrics : Option FaceMetrics
  antiSpoof : AntiSpoofState
  pendingSteps : List LivenessStep
deriving DecidableEq, Repr

/-- Replace the blink-gate state inside a session. -/
def setBlinkState (sess : Session) (b : BlinkState) : Session :=
  { sess with state := { sess.state with blinkState := b } }

/-- JavaScript Array.prototype.indexOf: -1 when the element is absent. -/
def jsIndexOf {α : Type} [DecidableEq α] (l : List α) (a : α) : ℤ :=
  if a ∈ l then (l.indexOf a : ℤ) else -1

/-- Translation of enterStep (useLivenessStateMachine.ts). -/
def enterStep (step : LivenessStep) (now : ℚ) (sess : Session) : Session :=
  { sess with
    state := { sess.state with
      currentStep := step
      stepEnteredAt := now
      stepCompletedAt := none
      alignedFrameCount := 0
      headPoseState := initialHeadPoseState
      blinkState :=
        if step = LivenessStep.BLINK then initialBlinkState else sess.state.blinkState } }

/-- Translation of completeStep (useLivenessStateMachine.ts): append the
step to completedSteps, record the yaw/pitch delta for turn steps when
both current metrics and a baseline exist, and either finish (last step)
or schedule the next step; the setTimeout-deferred enterStep is modelled
by enqueueing on pendingSteps (timerFire performs it).  The success
callback payload and sounds are side effects outside the machine state. -/
def completeStep (step : LivenessStep) (now : ℚ) (sess : Session) : Session :=
  let stepOrder := sess.state.stepOrder
  let currentIndex := jsIndexOf stepOrder step
  let isLastStep : Bool := decide (currentIndex = (stepOrder.length : ℤ) - 1)
  let prev := sess.state
  let newCompletedSteps := prev.completedSteps ++ [step]
  let newDeltas : List ℚ × List ℚ :=
    match sess.currentMetrics, prev.baselineMetrics with
    | some m, some b =>
      let yawDelta := getYawDelta m.yawMetric b.yawMetric
      let pitchDelta := getPitchDelta m.pitchMetric b.pitchMetric
      ( if step = LivenessStep.TURN_LEFT ∨ step = LivenessStep.TURN_RIGHT then
          prev.yawDeltas ++ [yawDelta] else prev.yawDeltas,
        if step = LivenessStep.TURN_UP ∨ step = LivenessStep.TURN_DOWN then
          prev.pitchDeltas ++ [pitchDelta] else prev.pitchDeltas )
    | _, _ => (prev.yawDeltas, prev.pitchDeltas)
  if isLastStep then
    { sess with state := { prev with
        currentStep := LivenessStep.SUCCESS
        stepCompletedAt := some now
        completedSteps := newCompletedSteps
        yawDeltas := newDeltas.1
        pitchDeltas := newDeltas.2
        isComplete := true } }
  else
    let nextStep := stepOrder.getD (currentIndex + 1).toNat LivenessStep.IDLE
    { sess with
      state := { prev with
        stepCompletedAt := some now
        completedSteps := newCompletedSteps
        yawDeltas := newDeltas.1
        pitchDeltas := newDeltas.2 }
      pendingSteps := sess.pendingSteps ++ [nextStep] }

/-- One scheduled step transition fires (the setTimeout callback in
completeStep running enterStep). -/
def timerFire (now : ℚ) (sess : Session) : Session :=
  match sess.pendingSteps with
  | [] => sess
  | s :: rest => enterStep s now { sess with pendingSteps := rest }

/-- Translation of processAlign (useLivenessStateMachine.ts): an
out-of-guide frame resets the consecutive counter, an in-guide frame
increments it, and on reaching ALIGN_REQUIRED_FRAMES the baseline is
captured from the current face and the ALIGN step completes. -/
def processAlign (face : Face) (insideGuide : Bool) (now : ℚ) (sess : Session) : Session :=
  if !insideGuide then
    { sess with state := { sess.state with alignedFrameCount := 0 } }
  else
    let newAlignedCount := sess.state.alignedFrameCount + 1
    if ALIGN_REQUIRED_FRAMES ≤ newAlignedCount then
      let earData := calculateAverageEAR face
      let poseMetrics := calculatePoseMetrics face
      let bbox := calculateBoundingBox face
      let baseline : BaselineMetrics :=
        { yawMetric := poseMetrics.yawMetric
          pitchMetric := poseMetrics.pitchMetric
          rollMetric := poseMetrics.rollMetric
          faceWidth := bbox.width
          faceHeight := bbox.height
          openEAR := earData.avg }
      completeStep LivenessStep.ALIGN now
        { sess with state := { sess.state with
            alignedFrameCount := newAlignedCount
            baselineMetrics := some baseline } }
    else
      { sess with state := { sess.state with alignedFrameCount := newAlignedCount } }

/-- Core of processBlink (useLivenessStateMachine.ts) after the EAR has
been smoothed: the calibration phase, the cooldown gate, and the
closed-to-open hysteresis state machine. -/
def blinkFrame (smoothedEAR now : ℚ) (sess : Session) : Session :=
  let b := sess.state.blinkState
  if b.isCalibrating then
    let samples := b.earSamples ++ [smoothedEAR]
    let frames := b.calibrationFrames + 1
    let b' :=
      if BLINK_CALIBRATION_FRAMES ≤ frames then
        let avgEAR := sma samples
        { b with
          earSamples := samples
          calibrationFrames := frames
          openEARBaseline := avgEAR
          closedThreshold := qmul avgEAR CLOSED_THRESHOLD_RATIO
          isCalibrating := false
          eyeState := EyeState.OPEN }
      else
        { b with earSamples := samples, calibrationFrames := frames }
    setBlinkState sess b'
  else if qsub now b.lastBlinkTime < BLINK_COOLDOWN_MS then sess
  else
    match getEyeState smoothedEAR b.openEARBaseline CLOSED_THRESHOLD_RATIO with
    | EyeState.CLOSED =>
      setBlinkState sess { b with
        closedFrameCount := b.closedFrameCount + 1
        openFrameCount := 0
        eyeState := EyeState.CLOSED }
    | EyeState.OPEN =>
      if CLOSED_FRAME_THRESHOLD ≤ b.closedFrameCount then
        let newOpen := b.openFrameCount + 1
        if OPEN_FRAME_THRESHOLD ≤ newOpen then
          completeStep LivenessStep.BLINK now
            (setBlinkState sess { b with
              openFrameCount := newOpen
              blinkDetected := true
              lastBlinkTime := now })
        else
          setBlinkState sess { b with openFrameCount := newOpen, eyeState := EyeState.OPEN }
      else
        setBlinkState sess { b with closedFrameCount := 0, eyeState := EyeState.OPEN }
    | EyeState.UNKNOWN => setBlinkState sess b

/-- Translation of processBlink (useLivenessStateMachine.ts): smooth the
average EAR through the EMA ref, then run the blink gate. -/
def processBlink (face : Face) (now : ℚ) (sess : Session) : Session :=
  let earData := calculateAverageEAR face
  let newSmoothed := ema earData.avg sess.smoothedEAR EMA_ALPHA
  blinkFrame newSmoothed now { sess with smoothedEAR := newSmoothed }

/-- The per-frame face metrics record stored by processFace and
processHeadTurn (both build the same record shape in the source). -/
def mkFaceMetrics (bbox : BoundingBox) (poseMetrics : PoseMetrics) (earData : EarData) :
    FaceMetrics :=
  { boundingBox := bbox
    yawMetric := poseMetrics.yawMetric
    pitchMetric := poseMetrics.pitchMetric
    rollMetric := poseMetrics.rollMetric
    faceWidth := poseMetrics.faceWidth
    faceHeight := poseMetrics.faceHeight
    leftEAR := earData.left
    rightEAR := earData.right
    avgEAR := earData.avg }

/-- Body of processHeadTurn (useLivenessStateMachine.ts) once the
baseline has been read: store the current metrics, reject excessive
roll (resetting the held counter), evaluate the direction predicate,
and either count a held frame or reset; on POSE_HELD_FRAMES held frames
the step completes. -/
def processHeadTurnWith (poseMetrics : PoseMetrics) (earDataTurn : EarData)
    (bbox : BoundingBox) (b : BaselineMetrics) (step : LivenessStep) (now : ℚ)
    (sess : Session) : Session :=
  let sess := { sess with currentMetrics := some (mkFaceMetrics bbox poseMetrics earDataTurn) }
  if !(isRollAcceptable poseMetrics.rollMetric ROLL_WARNING_THRESHOLD) then
    { sess with state := { sess.state with
        error := some "Keep your head straight (not tilted)"
        headPoseState := initialHeadPoseState } }
  else
    let sess := { sess with state := { sess.state with error := none } }
    let yawDelta := getYawDelta poseMetrics.yawMetric b.yawMetric
    let pitchDelta := getPitchDelta poseMetrics.pitchMetric b.pitchMetric
    let targetReached : Bool :=
      match step with
      | LivenessStep.TURN_LEFT => decide (yawDelta ≤ qneg YAW_THRESHOLD)
      | LivenessStep.TURN_RIGHT => decide (YAW_THRESHOLD ≤ yawDelta)
      | LivenessStep.TURN_UP => decide (pitchDelta ≤ qneg PITCH_THRESHOLD)
      | LivenessStep.TURN_DOWN => decide (PITCH_THRESHOLD ≤ pitchDelta)
      | _ => false
    if targetReached then
      let newHeldFrames := sess.state.headPoseState.heldFrames + 1
      if POSE_HELD_FRAMES ≤ newHeldFrames then
        completeStep step now sess
      else
        { sess with state := { sess.state with
            headPoseState := { heldFrames := newHeldFrames, targetReached := true } } }
    else
      { sess with state := { sess.state with headPoseState := initialHeadPoseState } }

/-- Translation of processHeadTurn (useLivenessStateMachine.ts): a no-op
when no baseline has been captured. -/
def processHeadTurn (face : Face) (step : LivenessStep) (now : ℚ) (sess : Session) : Session :=
  match sess.state.baselineMetrics with
  | none => sess
  | some b =>
    processHeadTurnWith (calculatePoseMetrics face) (calculateAverageEAR face)
      (calculateBoundingBox face) b step now sess

/-- Translation of processFace (useLivenessStateMachine.ts): the per-frame
entry point — early return when idle or finished, no-face handling,
face-size band check, anti-spoof update and verdict gate, current-metric
capture, error clearing, and dispatch to the active gate. -/
def processFace (face : Option Face) (guideBox : BoundingBox) (now : ℚ)
    (sess : Session) : Session :=
  let current := sess.state
  if current.isComplete ∨ current.currentStep = LivenessStep.IDLE ∨
      current.currentStep = LivenessStep.SUCCESS then sess
  else
    match face with
    | none =>
      { sess with state := { current with
          error := some "No face detected. Move into the frame."
          alignedFrameCount := 0
          headPoseState := initialHeadPoseState } }
    | some f =>
      let faceBbox := calculateBoundingBox f
      let insideGuide := isFaceInsideGuide faceBbox guideBox INSIDE_GUIDE_MARGIN
      let faceRatio := qdiv faceBbox.width guideBox.width
      if faceRatio < MIN_FACE_RATIO then
        { sess with state := { current with error := some "Move closer to the camera" } }
      else if MAX_FACE_RATIO < faceRatio then
        { sess with state := { current with error := some "Move further from the camera" } }
      else
        let sess := { sess with antiSpoof := updateAntiSpoofState now sess.antiSpoof f }
        if sess.antiSpoof.isSpoof then
          { sess with state := { sess.state with
              error := some ((sess.antiSpoof.reason).getD
                "Photo or screen detected. Use a real face.")
              alignedFrameCount := 0
              headPoseState := initialHeadPoseState } }
        else
          let poseMetrics := calculatePoseMetrics f
          let earData := calculateAverageEAR f
          let sess := { sess with
            currentMetrics := some (mkFaceMetrics faceBbox poseMetrics earData) }
          let sess :=
            if insideGuide = true ∧ current.currentStep ≠ LivenessStep.ALIGN then
              { sess with state := { sess.state with error := none } }
            else sess
          match current.currentStep with
          | LivenessStep.ALIGN =>
            if !insideGuide then
              { sess with state := { sess.state with
                  error := some "Move your face inside the box"
                  alignedFrameCount := 0 } }
            else
              processAlign f insideGuide now
                { sess with state := { sess.state with error := none } }
          | LivenessStep.BLINK => processBlink f now sess
          | LivenessStep.TURN_LEFT => processHeadTurn f LivenessStep.TURN_LEFT now sess
          | LivenessStep.TURN_RIGHT => processHeadTurn f LivenessStep.TURN_RIGHT now sess
          | LivenessStep.TURN_UP => processHeadTurn f LivenessStep.TURN_UP now sess
          | LivenessStep.TURN_DOWN => processHeadTurn f LivenessStep.TURN_DOWN now sess
          | _ => sess

/-- Modelled from the spec: the hook imports generateRandomStepOrder from
types/liveness, but its definition is not among the provided sources.
Per the spec (StepOrder in the data model, design notes) it seeds from
the fixed step list and shuffles it with a cryptographically
non-critical shuffle.  The randomness is supplied as an oracle list of
draws; each draw picks the next element of the permutation. -/
def shuffleWith {α : Type} : List ℕ → List α → List α
  | _, [] => []
  | [], l => l
  | r :: rs, l =>
    let j := r % l.length
    match l.get? j with
    | some a => a :: shuffleWith rs (l.eraseIdx j)
    | none => l

/-- Modelled from the spec: generateRandomStepOrder (types/liveness.ts,
not among the provided sources) — a shuffle of STEP_ORDER driven by the
supplied randomness oracle. -/
def generateRandomStepOrder (rands : List ℕ) : List LivenessStep :=
  shuffleWith rands STEP_ORDER

/-- Translation of start (useLivenessStateMachine.ts): reset the refs,
generate a fresh step order, and enter ALIGN. -/
def start (rands : List ℕ) (now : ℚ) : Session :=
  { state := { initialState with
      stepOrder := generateRandomStepOrder rands
      currentStep := LivenessStep.ALIGN
      stepEnteredAt := now }
    smoothedEAR := 0
    currentMetrics := none
    antiSpoof := createAntiSpoofState
    pendingSteps := [] }

/-! ## Frame-sequence runs -/

/-- Fold a sequence of frames (face, guide box, time) through processFace. -/
def processRun (frames : List (Option Face × BoundingBox × ℚ)) (sess : Session) : Session :=
  frames.foldl (fun s fr => processFace fr.1 fr.2.1 fr.2.2 s) sess

/-- Fold a sequence of (smoothed EAR, time) pairs through the blink gate. -/
def blinkRun (inputs : List (ℚ × ℚ)) (sess : Session) : Session :=
  inputs.foldl (fun s p => blinkFrame p.1 p.2 s) sess

/-- Fold a sequence of (face, time) pairs through processBlink. -/
def processBlinkRun (inputs : List (Face × ℚ)) (sess : Session) : Session :=
  inputs.foldl (fun s p => processBlink p.1 p.2 s) sess

/-- One head-turn frame given precomputed geometry, including the
baseline guard of processHeadTurn. -/
def headTurnFrame (poseMetrics : PoseMetrics) (earDataTurn : EarData) (bbox : BoundingBox)
    (step : LivenessStep) (now : ℚ) (sess : Session) : Session :=
  match sess.state.baselineMetrics with
  | none => sess
  | some b => processHeadTurnWith poseMetrics earDataTurn bbox b step now sess

/-- Fold a sequence of head-turn frames (pose, EAR, box, time). -/
def headTurnRun (inputs : List (PoseMetrics × EarData × BoundingBox × ℚ))
    (step : LivenessStep) (sess : Session) : Session :=
  inputs.foldl (fun s p => headTurnFrame p.1 p.2.1 p.2.2.1 step p.2.2.2 s) sess

/-- Fold a list of faces through the anti-spoof analyzer. -/
def antiSpoofRun (now : ℚ) (faces : List Face) (s : AntiSpoofState) : AntiSpoofState :=
  faces.foldl (updateAntiSpoofState now) s

/-! ## Helper lemmas about completeStep and the blink gate -/

theorem completeStep_completedSteps (step : LivenessStep) (now : ℚ) (sess : Session) :
    (completeStep step now sess).state.completedSteps
      = sess.state.completedSteps ++ [step] := by
  unfold completeStep
  dsimp only
  split <;> rfl

theorem completeStep_blinkState (step : LivenessStep) (now : ℚ) (sess : Session) :
    (completeStep step now sess).state.blinkState = sess.state.blinkState := by
  unfold completeStep
  dsimp only
  split <;> rfl

theorem completeStep_baselineMetrics (step : LivenessStep) (now : ℚ) (sess : Session) :
    (completeStep step now sess).state.baselineMetrics = sess.state.baselineMetrics := by
  unfold completeStep
  dsimp only
  split <;> rfl

theorem completeStep_alignedFrameCount (step : LivenessStep) (now : ℚ) (sess : Session) :
    (completeStep step now sess).state.alignedFrameCount
      = sess.state.alignedFrameCount := by
  unfold completeStep
  dsimp only
  split <;> rfl

theorem completeStep_yawDeltas_left (step : LivenessStep) (now : ℚ) (sess : Session)
    (m : FaceMetrics) (b : BaselineMetrics)
    (hm : sess.currentMetrics = some m) (hb : sess.state.baselineMetrics = some b)
    (hstep : step = LivenessStep.TURN_LEFT ∨ step = LivenessStep.TURN_RIGHT) :
    (completeStep step now sess).state.yawDeltas
      = sess.state.yawDeltas ++ [getYawDelta m.yawMetric b.yawMetric] := by
  rcases hstep with h | h <;> subst h <;>
    simp only [completeStep, hm, hb] <;> split <;> simp

/-- setBlinkState with the unchanged blink state is the identity
(structure eta). -/
theorem setBlinkState_self (sess : Session) :
    setBlinkState sess sess.state.blinkState = sess := rfl

theorem setBlinkState_setBlinkState (sess : Session) (b1 b2 : BlinkState) :
    setBlinkState (setBlinkState sess b1) b2 = setBlinkState sess b2 := rfl

theorem setBlinkState_blinkState (sess : Session) (b : BlinkState) :
    (setBlinkState sess b).state.blinkState = b := rfl

/-! ## Claim C1 -/

/-- Two-keypoint face used for the C1 run (no depth values, so the
anti-spoof depth indicator alone fires at weight 0.4 < 0.6). -/
def jitterFaceA : Face := ⟨[⟨10, 10, none⟩, ⟨50, 50, none⟩]⟩

/-- The same face translated by one pixel; alternating the two produces
micro-movement 1/20 per frame, keeping the movement indicator quiet. -/
def jitterFaceB : Face := ⟨[⟨11, 11, none⟩, ⟨51, 51, none⟩]⟩

/-- Guide box for the C1 run; both faces sit inside it with face/guide
width ratio 0.4. -/
def guideBoxC1 : BoundingBox := ⟨0, 0, 100, 100⟩

/-- Thirteen consecutive in-guide frames, alternating the two jitter
faces, all plain processFace events (no timerFire in between: at 12 FPS
several frames arrive inside the 500 ms STEP_COOLDOWN window before the
setTimeout-scheduled enterStep runs). -/
def framesC1 : List (Option Face × BoundingBox × ℚ) :=
  (List.range 13).map
    (fun i => (some (if i % 2 = 0 then jitterFaceA else jitterFaceB), guideBoxC1, (0 : ℚ)))

set_option maxRecDepth 100000

/-- C1: the claimed invariant — completedSteps is always a strict prefix
of stepOrder with each step appended exactly once — is violated by the
code: after start() and thirteen consecutive in-guide frames with no
scheduled step transition having fired yet (the12th frame completes
ALIGN and schedules the transition 500 ms out; the 13th frame arrives
first, finds currentStep still ALIGN with alignedFrameCount 12, and
completes ALIGN again), completedSteps is [ALIGN, ALIGN]: not a prefix
of stepOrder, not duplicate-free, with two pending BLINK transitions
queued.  The anti-spoof verdict stays false throughout the run, so no
error path interferes. -/
theorem C1_align_completed_twice_during_cooldown :
    (processRun framesC1 (start [] 0)).state.completedSteps
        = [LivenessStep.ALIGN, LivenessStep.ALIGN] ∧
    (processRun framesC1 (start [] 0)).state.stepOrder = STEP_ORDER ∧
    List.isPrefixOf (processRun framesC1 (start [] 0)).state.completedSteps
        (processRun framesC1 (start [] 0)).state.stepOrder = false ∧
    ¬ (processRun framesC1 (start [] 0)).state.completedSteps.Nodup ∧
    (processRun framesC1 (start [] 0)).pendingSteps
        = [LivenessStep.BLINK, LivenessStep.BLINK] ∧
    (processRun framesC1 (start [] 0)).antiSpoof.isSpoof = false := by
  refine ⟨by decide, by decide, by decide, by decide, by decide, by decide⟩

/-! ## Claim C8 -/

/-- C8: during a head-turn step with no captured baseline the head-pose
gate is a no-op — processHeadTurn returns the session unchanged, so it
modifies nothing and can never signal completion of the turn step. -/
theorem C8_headTurn_noop_without_baseline (face : Face) (step : LivenessStep) (now : ℚ)
    (sess : Session) (h : sess.state.baselineMetrics = none) :
    processHeadTurn face step now sess = sess := by
  unfold processHeadTurn
  rw [h]

/-- Witness for C8 at a concrete freshly started session (whose baseline
is none) and a concrete face. -/
theorem C8_headTurn_noop_without_baseline_witness :
    (start [] 0).state.baselineMetrics = none ∧
    processHeadTurn ⟨[⟨3, 4, none⟩]⟩ LivenessStep.TURN_LEFT 7 (start [] 0) = start [] 0 :=
  ⟨rfl, C8_headTurn_noop_without_baseline ⟨[⟨3, 4, none⟩]⟩ LivenessStep.TURN_LEFT 7
    (start [] 0) rfl⟩

/-! ## Claim C9 -/

/-- C9: getLandmark is total over indices — any index outside
[0, keypoints.length) yields [0, 0, 0], and an in-range keypoint with an
undefined z coordinate yields its x, y with z substituted by 0. -/
theorem C9_getLandmark_total (face : Face) (index : ℤ) :
    ((index < 0 ∨ (face.keypoints.length : ℤ) ≤ index) →
        getLandmark face index = ⟨0, 0, 0⟩) ∧
    (∀ kp : Keypoint, face.keypoints.get? index.toNat = some kp → 0 ≤ index →
        kp.z = none → getLandmark face index = ⟨kp.x, kp.y, 0⟩) := by
  constructor
  · intro h
    unfold getLandmark
    rw [if_neg]
    rintro ⟨h0, hlt⟩
    rcases h with h | h
    · exact absurd h0 (not_le.mpr h)
    · exact absurd hlt (not_lt.mpr h)
  · intro kp hget h0 hz
    have hlt : index.toNat < face.keypoints.length := by
      by_contra hc
      push_neg at hc
      rw [List.get?_eq_none.mpr hc] at hget
      exact Option.noConfusion hget
    have hlt' : index < (face.keypoints.length : ℤ) := by omega
    have hget' : face.keypoints[index.toNat]? = some kp := by
      rw [← List.get?_eq_getElem?]
      exact hget
    unfold getLandmark
    rw [if_pos ⟨h0, hlt'⟩]
    simp [List.getD, hget', hz]

/-- Witness for C9: a one-keypoint face, probed at a negative index, an
index past the end, and the in-range index 0 whose z is undefined. -/
theorem C9_getLandmark_total_witness :
    getLandmark ⟨[⟨1, 2, none⟩]⟩ (-1) = ⟨0, 0, 0⟩ ∧
    getLandmark ⟨[⟨1, 2, none⟩]⟩ 5 = ⟨0, 0, 0⟩ ∧
    getLandmark ⟨[⟨1, 2, none⟩]⟩ 0 = ⟨1, 2, 0⟩ :=
  ⟨(C9_getLandmark_total ⟨[⟨1, 2, none⟩]⟩ (-1)).1 (Or.inl (by decide)),
   (C9_getLandmark_total ⟨[⟨1, 2, none⟩]⟩ 5).1 (Or.inr (by decide)),
   (C9_getLandmark_total ⟨[⟨1, 2, none⟩]⟩ 0).2 ⟨1, 2, none⟩ rfl (by decide) rfl⟩

/-! ## Claim C7 -/

/-- One blink-gate frame on a calibrated session whose open-EAR baseline
is 0 changes nothing: the classification is UNKNOWN (or the cooldown
gate returns early) and no branch of the detector runs. -/
theorem blinkFrame_degenerate_id (e t : ℚ) (sess : Session)
    (hcal : sess.state.blinkState.isCalibrating = false)
    (hb : sess.state.blinkState.openEARBaseline = 0) :
    blinkFrame e t sess = sess := by
  unfold blinkFrame
  simp only [hcal, hb, getEyeState, if_pos rfl, Bool.false_eq_true, if_false]
  split <;> rfl

/-- C7: a degenerate calibration (openEARBaseline = 0) makes the eye
classifier return UNKNOWN for every EAR input, and consequently the
blink gate never changes the machine state and no blink event can ever
fire in that session — neither through the gate core on smoothed EAR
inputs nor through processBlink on raw faces. -/
theorem C7_degenerate_baseline_unknown_no_blink :
    (∀ e r : ℚ, getEyeState e 0 r = EyeState.UNKNOWN) ∧
    (∀ (inputs : List (ℚ × ℚ)) (sess : Session),
      sess.state.blinkState.isCalibrating = false →
      sess.state.blinkState.openEARBaseline = 0 →
      blinkRun inputs sess = sess) ∧
    (∀ (inputs : List (Face × ℚ)) (sess : Session),
      sess.state.blinkState.isCalibrating = false →
      sess.state.blinkState.openEARBaseline = 0 →
      (processBlinkRun inputs sess).state = sess.state) := by
  refine ⟨?_, ?_, ?_⟩
  · intro e r
    simp [getEyeState]
  · intro inputs
    induction inputs with
    | nil => intro sess h1 h2; rfl
    | cons p ps ih =>
      intro sess h1 h2
      show blinkRun ps (blinkFrame p.1 p.2 sess) = sess
      rw [blinkFrame_degenerate_id p.1 p.2 sess h1 h2]
      exact ih sess h1 h2
  · intro inputs
    induction inputs with
    | nil => intro sess h1 h2; rfl
    | cons p ps ih =>
      intro sess h1 h2
      show (processBlinkRun ps (processBlink p.1 p.2 sess)).state = sess.state
      have hstep : processBlink p.1 p.2 sess
          = { sess with smoothedEAR := ema (calculateAverageEAR p.1).avg sess.smoothedEAR EMA_ALPHA } := by
        unfold processBlink
        exact blinkFrame_degenerate_id _ _ _ h1 h2
      rw [hstep]
      exact ih _ h1 h2

/-- Session with a calibrated blink gate whose baseline degenerated to 0. -/
def degenerateSession : Session :=
  { state := { initialState with
      blinkState := { initialBlinkState with isCalibrating := false } }
    smoothedEAR := 0
    currentMetrics := none
    antiSpoof := createAntiSpoofState
    pendingSteps := [] }

/-- Witness for C7 at concrete inputs on the degenerate session. -/
theorem C7_degenerate_baseline_unknown_no_blink_witness :
    getEyeState 5 0 (mkRat 13 20) = EyeState.UNKNOWN ∧
    blinkRun [(mkRat 1 10, 1000), (mkRat 3 10, 2000)] degenerateSession
      = degenerateSession ∧
    (processBlinkRun [(⟨[⟨3, 4, none⟩]⟩, 1000)] degenerateSession).state
      = degenerateSession.state :=
  ⟨C7_degenerate_baseline_unknown_no_blink.1 5 (mkRat 13 20),
   C7_degenerate_baseline_unknown_no_blink.2.1 _ degenerateSession rfl rfl,
   C7_degenerate_baseline_unknown_no_blink.2.2 _ degenerateSession rfl rfl⟩

/-! ## Claim C6 -/

theorem blinkRun_cons (p : ℚ × ℚ) (ps : List (ℚ × ℚ)) (sess : Session) :
    blinkRun (p :: ps) sess = blinkRun ps (blinkFrame p.1 p.2 sess) := rfl

theorem blinkRun_append (xs ys : List (ℚ × ℚ)) (sess : Session) :
    blinkRun (xs ++ ys) sess = blinkRun ys (blinkRun xs sess) := by
  simp [blinkRun, List.foldl_append]

/-- One calibration frame before the calibration count is reached:
append the sample and bump the counter. -/
theorem blinkFrame_calibrating_step (e t : ℚ) (sess : Session)
    (h1 : sess.state.blinkState.isCalibrating = true)
    (h2 : ¬ BLINK_CALIBRATION_FRAMES ≤ sess.state.blinkState.calibrationFrames + 1) :
    blinkFrame e t sess = setBlinkState sess
      { sess.state.blinkState with
        earSamples := sess.state.blinkState.earSamples ++ [e]
        calibrationFrames := sess.state.blinkState.calibrationFrames + 1 } := by
  unfold blinkFrame
  simp [h1, h2]

/-- The calibration frame that reaches the calibration count: freeze the
baseline as the mean of the samples and leave the calibrating state. -/
theorem blinkFrame_calibration_freeze (e t : ℚ) (sess : Session)
    (h1 : sess.state.blinkState.isCalibrating = true)
    (h2 : BLINK_CALIBRATION_FRAMES ≤ sess.state.blinkState.calibrationFrames + 1) :
    blinkFrame e t sess = setBlinkState sess
      { sess.state.blinkState with
        earSamples := sess.state.blinkState.earSamples ++ [e]
        calibrationFrames := sess.state.blinkState.calibrationFrames + 1
        openEARBaseline := sma (sess.state.blinkState.earSamples ++ [e])
        closedThreshold := qmul (sma (sess.state.blinkState.earSamples ++ [e])) CLOSED_THRESHOLD_RATIO
        isCalibrating := false
        eyeState := EyeState.OPEN } := by
  unfold blinkFrame
  simp [h1, h2]

/-- A calibration run that stays below the calibration count appends all
samples and counts the frames. -/
theorem blinkRun_calibrating (inputs : List (ℚ × ℚ)) :
    ∀ sess : Session,
      sess.state.blinkState.isCalibrating = true →
      sess.state.blinkState.calibrationFrames + inputs.length < BLINK_CALIBRATION_FRAMES →
      blinkRun inputs sess = setBlinkState sess
        { sess.state.blinkState with
          earSamples := sess.state.blinkState.earSamples ++ inputs.map Prod.fst
          calibrationFrames := sess.state.blinkState.calibrationFrames + inputs.length } := by
  induction inputs with
  | nil =>
    intro sess h1 h2
    show sess = _
    simp only [List.map_nil, List.append_nil, List.length_nil, Nat.add_zero]
    rfl
  | cons p ps ih =>
    intro sess h1 h2
    rw [blinkRun_cons]
    have hlt : ¬ BLINK_CALIBRATION_FRAMES ≤ sess.state.blinkState.calibrationFrames + 1 := by
      simp only [List.length_cons] at h2
      omega
    rw [blinkFrame_calibrating_step p.1 p.2 sess h1 hlt]
    have h1' : (setBlinkState sess
        { sess.state.blinkState with
          earSamples := sess.state.blinkState.earSamples ++ [p.1]
          calibrationFrames := sess.state.blinkState.calibrationFrames + 1
          }).state.blinkState.isCalibrating = true := h1
    have h2' : (setBlinkState sess
        { sess.state.blinkState with
          earSamples := sess.state.blinkState.earSamples ++ [p.1]
          calibrationFrames := sess.state.blinkState.calibrationFrames + 1
          }).state.blinkState.calibrationFrames + ps.length < BLINK_CALIBRATION_FRAMES := by
      show sess.state.blinkState.calibrationFrames + 1 + ps.length < BLINK_CALIBRATION_FRAMES
      simp only [List.length_cons] at h2
      omega
    rw [ih _ h1' h2']
    show setBlinkState sess _ = setBlinkState sess _
    apply congrArg
    show ({ sess.state.blinkState with
        earSamples := (sess.state.blinkState.earSamples ++ [p.1]) ++ List.map Prod.fst ps
        calibrationFrames := (sess.state.blinkState.calibrationFrames + 1) + ps.length
        } : BlinkState) = _
    have e1 : (sess.state.blinkState.earSamples ++ [p.1]) ++ List.map Prod.fst ps
        = sess.state.blinkState.earSamples ++ List.map Prod.fst (p :: ps) := by simp
    have e2 : (sess.state.blinkState.calibrationFrames + 1) + ps.length
        = sess.state.blinkState.calibrationFrames + (p :: ps).length := by
      simp only [List.length_cons]
      omega
    rw [e1, e2]

/-- Any blink-gate frame on a calibrated (frozen) state preserves the
frozen baseline and threshold and stays calibrated. -/
theorem blinkFrame_frozen (e t : ℚ) (sess : Session)
    (h : sess.state.blinkState.isCalibrating = false) :
    (blinkFrame e t sess).state.blinkState.openEARBaseline
        = sess.state.blinkState.openEARBaseline ∧
    (blinkFrame e t sess).state.blinkState.closedThreshold
        = sess.state.blinkState.closedThreshold ∧
    (blinkFrame e t sess).state.blinkState.isCalibrating = false := by
  unfold blinkFrame
  simp only [h, Bool.false_eq_true, if_false]
  split
  · exact ⟨rfl, rfl, h⟩
  · split
    · exact ⟨rfl, rfl, rfl⟩
    · split
      · split
        · refine ⟨?_, ?_, ?_⟩ <;> rw [completeStep_blinkState] <;> rfl
        · exact ⟨rfl, rfl, rfl⟩
      · exact ⟨rfl, rfl, rfl⟩
    · exact ⟨rfl, rfl, h⟩

/-- Run form of blinkFrame_frozen. -/
theorem blinkRun_frozen (inputs : List (ℚ × ℚ)) :
    ∀ sess : Session,
      sess.state.blinkState.isCalibrating = false →
      (blinkRun inputs sess).state.blinkState.openEARBaseline
          = sess.state.blinkState.openEARBaseline ∧
      (blinkRun inputs sess).state.blinkState.closedThreshold
          = sess.state.blinkState.closedThreshold ∧
      (blinkRun inputs sess).state.blinkState.isCalibrating = false := by
  induction inputs with
  | nil => intro sess h; exact ⟨rfl, rfl, h⟩
  | cons p ps ih =>
    intro sess h
    rw [blinkRun_cons]
    obtain ⟨h1, h2, h3⟩ := blinkFrame_frozen p.1 p.2 sess h
    obtain ⟨g1, g2, g3⟩ := ih (blinkFrame p.1 p.2 sess) h3
    exact ⟨g1.trans h1, g2.trans h2, g3⟩

/-- C6: fed BLINK_CALIBRATION_FRAMES frames whose smoothed EAR is
constantly 0.30 from the freshly reset blink state, the gate computes
openEARBaseline = 0.30 — the mean of the collected samples —
and closedThreshold = 0.30 * CLOSED_THRESHOLD_RATIO = 39/200, and
leaves the calibrating state; and once the calibrating state has been
left, no further blink-gate frame ever changes the two frozen values or
re-enters calibration. -/
theorem C6_blink_calibration_freezes (sess : Session) (inputs : List (ℚ × ℚ))
    (hbs : sess.state.blinkState = initialBlinkState)
    (hlen : inputs.length = BLINK_CALIBRATION_FRAMES)
    (hconst : ∀ p ∈ inputs, p.1 = mkRat 3 10) :
    ((blinkRun inputs sess).state.blinkState.openEARBaseline = mkRat 3 10 ∧
     (blinkRun inputs sess).state.blinkState.openEARBaseline
        = sma (blinkRun inputs sess).state.blinkState.earSamples ∧
     (blinkRun inputs sess).state.blinkState.closedThreshold = mkRat 39 200 ∧
     (blinkRun inputs sess).state.blinkState.isCalibrating = false) ∧
    (∀ (more : List (ℚ × ℚ)) (s : Session),
      s.state.blinkState.isCalibrating = false →
      (blinkRun more s).state.blinkState.openEARBaseline
          = s.state.blinkState.openEARBaseline ∧
      (blinkRun more s).state.blinkState.closedThreshold
          = s.state.blinkState.closedThreshold ∧
      (blinkRun more s).state.blinkState.isCalibrating = false) := by
  refine ⟨?_, fun more s h => blinkRun_frozen more s h⟩
  have hne : inputs ≠ [] := by
    intro hemp
    rw [hemp] at hlen
    exact absurd hlen.symm (by decide)
  have hsplit : inputs.dropLast ++ [inputs.getLast hne] = inputs :=
    List.dropLast_append_getLast hne
  have hdlen : inputs.dropLast.length = 14 := by
    have hdl := List.length_dropLast inputs
    have hlen15 : inputs.length = 15 := hlen
    omega
  have hmap : inputs.dropLast.map Prod.fst = List.replicate 14 (mkRat 3 10) := by
    apply List.eq_replicate_iff.mpr
    constructor
    · simpa using hdlen
    · intro b hb
      obtain ⟨p, hp, hpb⟩ := List.mem_map.mp hb
      rw [← hpb]
      exact hconst p (List.dropLast_subset inputs hp)
  have hlaste : (inputs.getLast hne).1 = mkRat 3 10 :=
    hconst _ (List.getLast_mem hne)
  rw [← hsplit, blinkRun_append]
  have hmid := blinkRun_calibrating inputs.dropLast sess
    (by rw [hbs]; rfl)
    (by rw [hbs, hdlen]; decide)
  rw [hmid]
  set mid := setBlinkState sess
    { sess.state.blinkState with
      earSamples := sess.state.blinkState.earSamples ++ inputs.dropLast.map Prod.fst
      calibrationFrames := sess.state.blinkState.calibrationFrames + inputs.dropLast.length }
    with hmid_def
  have hmidcal : mid.state.blinkState.isCalibrating = true := by
    rw [hmid_def, setBlinkState_blinkState, hbs]
    rfl
  have hmidframes : mid.state.blinkState.calibrationFrames = 14 := by
    rw [hmid_def, setBlinkState_blinkState, hbs, hdlen]
    rfl
  have hmidsamples : mid.state.blinkState.earSamples = List.replicate 14 (mkRat 3 10) := by
    rw [hmid_def, setBlinkState_blinkState, hbs, hmap]
    rfl
  have hrun1 : blinkRun [inputs.getLast hne] mid
      = blinkFrame (inputs.getLast hne).1 (inputs.getLast hne).2 mid := rfl
  have hfreeze := blinkFrame_calibration_freeze (inputs.getLast hne).1
    (inputs.getLast hne).2 mid hmidcal (by rw [hmidframes]; decide)
  rw [hrun1, hfreeze]
  simp only [setBlinkState_blinkState]
  rw [hmidsamples, hlaste]
  have hrep : List.replicate 14 (mkRat 3 10) ++ [mkRat 3 10]
      = List.replicate 15 (mkRat 3 10) := by decide
  rw [hrep]
  exact ⟨by decide, trivial, by decide, trivial⟩

/-- Witness for C6: fifteen calibration frames at smoothed EAR 0.30 on a
freshly started session, then one post-freeze frame that must leave the
frozen values untouched. -/
theorem C6_blink_calibration_freezes_witness :
    (start [] 0).state.blinkState = initialBlinkState ∧
    (List.replicate 15 ((mkRat 3 10 : ℚ), (0 : ℚ))).length = BLINK_CALIBRATION_FRAMES ∧
    (blinkRun (List.replicate 15 (mkRat 3 10, 0)) (start [] 0)).state.blinkState.openEARBaseline
        = mkRat 3 10 ∧
    (blinkRun (List.replicate 15 (mkRat 3 10, 0)) (start [] 0)).state.blinkState.closedThreshold
        = mkRat 39 200 ∧
    (blinkRun (List.replicate 15 (mkRat 3 10, 0)) (start [] 0)).state.blinkState.isCalibrating
        = false ∧
    (blinkRun [(mkRat 1 2, 700)]
        (blinkRun (List.replicate 15 (mkRat 3 10, 0)) (start [] 0))).state.blinkState.openEARBaseline
      = (blinkRun (List.replicate 15 (mkRat 3 10, 0)) (start [] 0)).state.blinkState.openEARBaseline := by
  have h := C6_blink_calibration_freezes (start [] 0) (List.replicate 15 (mkRat 3 10, 0))
    rfl (by decide) (by decide)
  exact ⟨rfl, by decide, h.1.1, h.1.2.2.1, h.1.2.2.2,
    (h.2 [(mkRat 1 2, 700)] _ h.1.2.2.2).1⟩

/-! ## Claim C3 -/

/-- A calibrated, out-of-cooldown frame classified CLOSED increments the
closed-frame counter and zeroes the open-frame counter. -/
theorem blinkFrame_closed (e t : ℚ) (sess : Session)
    (hcal : sess.state.blinkState.isCalibrating = false)
    (hcd : ¬ qsub t sess.state.blinkState.lastBlinkTime < BLINK_COOLDOWN_MS)
    (heye : getEyeState e sess.state.blinkState.openEARBaseline CLOSED_THRESHOLD_RATIO
        = EyeState.CLOSED) :
    blinkFrame e t sess = setBlinkState sess
      { sess.state.blinkState with
        closedFrameCount := sess.state.blinkState.closedFrameCount + 1
        openFrameCount := 0
        eyeState := EyeState.CLOSED } := by
  unfold blinkFrame
  simp [hcal, hcd, heye]

/-- A calibrated, out-of-cooldown frame classified OPEN after a
sufficient closed run, while the open run is still short, increments
the open-frame counter without firing. -/
theorem blinkFrame_openNoFire (e t : ℚ) (sess : Session)
    (hcal : sess.state.blinkState.isCalibrating = false)
    (hcd : ¬ qsub t sess.state.blinkState.lastBlinkTime < BLINK_COOLDOWN_MS)
    (heye : getEyeState e sess.state.blinkState.openEARBaseline CLOSED_THRESHOLD_RATIO
        = EyeState.OPEN)
    (hclosed : CLOSED_FRAME_THRESHOLD ≤ sess.state.blinkState.closedFrameCount)
    (hopen : ¬ OPEN_FRAME_THRESHOLD ≤ sess.state.blinkState.openFrameCount + 1) :
    blinkFrame e t sess = setBlinkState sess
      { sess.state.blinkState with
        openFrameCount := sess.state.blinkState.openFrameCount + 1
        eyeState := EyeState.OPEN } := by
  unfold blinkFrame
  simp [hcal, hcd, heye, hclosed, hopen]

/-- The OPEN frame that completes the closed-to-open cycle: the blink
fires, the cooldown starts (lastBlinkTime := now) and the BLINK step
completes. -/
theorem blinkFrame_openFire (e t : ℚ) (sess : Session)
    (hcal : sess.state.blinkState.isCalibrating = false)
    (hcd : ¬ qsub t sess.state.blinkState.lastBlinkTime < BLINK_COOLDOWN_MS)
    (heye : getEyeState e sess.state.blinkState.openEARBaseline CLOSED_THRESHOLD_RATIO
        = EyeState.OPEN)
    (hclosed : CLOSED_FRAME_THRESHOLD ≤ sess.state.blinkState.closedFrameCount)
    (hopen : OPEN_FRAME_THRESHOLD ≤ sess.state.blinkState.openFrameCount + 1) :
    blinkFrame e t sess = completeStep LivenessStep.BLINK t (setBlinkState sess
      { sess.state.blinkState with
        openFrameCount := sess.state.blinkState.openFrameCount + 1
        blinkDetected := true
        lastBlinkTime := t }) := by
  unfold blinkFrame
  simp [hcal, hcd, heye, hclosed, hopen]

/-- An OPEN frame arriving before the closed run reaches the threshold
resets the closed-frame counter to zero and does not fire. -/
theorem blinkFrame_openReset (e t : ℚ) (sess : Session)
    (hcal : sess.state.blinkState.isCalibrating = false)
    (hcd : ¬ qsub t sess.state.blinkState.lastBlinkTime < BLINK_COOLDOWN_MS)
    (heye : getEyeState e sess.state.blinkState.openEARBaseline CLOSED_THRESHOLD_RATIO
        = EyeState.OPEN)
    (hclosed : ¬ CLOSED_FRAME_THRESHOLD ≤ sess.state.blinkState.closedFrameCount) :
    blinkFrame e t sess = setBlinkState sess
      { sess.state.blinkState with
        closedFrameCount := 0
        eyeState := EyeState.OPEN } := by
  unfold blinkFrame
  simp [hcal, hcd, heye, hclosed]

/-- A nonempty run of CLOSED-classified, out-of-cooldown frames on a
calibrated gate accumulates its length into closedFrameCount and zeroes
openFrameCount. -/
theorem blinkClosedRun (cs : List (ℚ × ℚ)) :
    ∀ sess : Session,
      sess.state.blinkState.isCalibrating = false →
      (∀ p ∈ cs,
        getEyeState p.1 sess.state.blinkState.openEARBaseline CLOSED_THRESHOLD_RATIO
            = EyeState.CLOSED ∧
        ¬ qsub p.2 sess.state.blinkState.lastBlinkTime < BLINK_COOLDOWN_MS) →
      cs ≠ [] →
      blinkRun cs sess = setBlinkState sess
        { sess.state.blinkState with
          closedFrameCount := sess.state.blinkState.closedFrameCount + cs.length
          openFrameCount := 0
          eyeState := EyeState.CLOSED } := by
  induction cs with
  | nil => intro sess _ _ hne; exact absurd rfl hne
  | cons p ps ih =>
    intro sess hcal hin hne
    rw [blinkRun_cons]
    have hp := hin p (List.mem_cons_self p ps)
    rw [blinkFrame_closed p.1 p.2 sess hcal hp.2 hp.1]
    by_cases hps : ps = []
    · subst hps
      rfl
    · have h1' : (setBlinkState sess
          { sess.state.blinkState with
            closedFrameCount := sess.state.blinkState.closedFrameCount + 1
            openFrameCount := 0
            eyeState := EyeState.CLOSED }).state.blinkState.isCalibrating = false := hcal
      have hin' : ∀ q ∈ ps,
          getEyeState q.1 (setBlinkState sess
            { sess.state.blinkState with
              closedFrameCount := sess.state.blinkState.closedFrameCount + 1
              openFrameCount := 0
              eyeState := EyeState.CLOSED }).state.blinkState.openEARBaseline
            CLOSED_THRESHOLD_RATIO = EyeState.CLOSED ∧
          ¬ qsub q.2 (setBlinkState sess
            { sess.state.blinkState with
              closedFrameCount := sess.state.blinkState.closedFrameCount + 1
              openFrameCount := 0
              eyeState := EyeState.CLOSED }).state.blinkState.lastBlinkTime
            < BLINK_COOLDOWN_MS :=
        fun q hq => hin q (List.mem_cons_of_mem p hq)
      rw [ih _ h1' hin' hps]
      show setBlinkState sess _ = setBlinkState sess _
      apply congrArg
      show ({ sess.state.blinkState with
          closedFrameCount := (sess.state.blinkState.closedFrameCount + 1) + ps.length
          openFrameCount := 0
          eyeState := EyeState.CLOSED } : BlinkState) = _
      have e2 : (sess.state.blinkState.closedFrameCount + 1) + ps.length
          = sess.state.blinkState.closedFrameCount + (p :: ps).length := by
        simp only [List.length_cons]
        omega
      rw [e2]

/-- C3: on a calibrated gate outside cooldown, a run of at least
CLOSED_FRAME_THRESHOLD CLOSED-classified frames followed by
OPEN_FRAME_THRESHOLD OPEN-classified frames fires exactly one blink
event — the BLINK step is completed once, blinkDetected is set, and the
cooldown starts at the firing frame's time; while an OPEN frame arriving
before the closed run reaches CLOSED_FRAME_THRESHOLD resets
closedFrameCount to 0 and the whole sequence fires no blink event. -/
theorem C3_blink_cycle (sess : Session)
    (cs : List (ℚ × ℚ)) (o1 o2 : ℚ × ℚ) (cs2 : List (ℚ × ℚ)) (o3 : ℚ × ℚ)
    (hcal : sess.state.blinkState.isCalibrating = false)
    (hcs : ∀ p ∈ cs,
      getEyeState p.1 sess.state.blinkState.openEARBaseline CLOSED_THRESHOLD_RATIO
          = EyeState.CLOSED ∧
      ¬ qsub p.2 sess.state.blinkState.lastBlinkTime < BLINK_COOLDOWN_MS)
    (hlen : CLOSED_FRAME_THRESHOLD ≤ cs.length)
    (ho1 : getEyeState o1.1 sess.state.blinkState.openEARBaseline CLOSED_THRESHOLD_RATIO
          = EyeState.OPEN ∧
      ¬ qsub o1.2 sess.state.blinkState.lastBlinkTime < BLINK_COOLDOWN_MS)
    (ho2 : getEyeState o2.1 sess.state.blinkState.openEARBaseline CLOSED_THRESHOLD_RATIO
          = EyeState.OPEN ∧
      ¬ qsub o2.2 sess.state.blinkState.lastBlinkTime < BLINK_COOLDOWN_MS)
    (hc0 : sess.state.blinkState.closedFrameCount = 0)
    (hcs2 : ∀ p ∈ cs2,
      getEyeState p.1 sess.state.blinkState.openEARBaseline CLOSED_THRESHOLD_RATIO
          = EyeState.CLOSED ∧
      ¬ qsub p.2 sess.state.blinkState.lastBlinkTime < BLINK_COOLDOWN_MS)
    (hlen2 : cs2.length < CLOSED_FRAME_THRESHOLD)
    (ho3 : getEyeState o3.1 sess.state.blinkState.openEARBaseline CLOSED_THRESHOLD_RATIO
          = EyeState.OPEN ∧
      ¬ qsub o3.2 sess.state.blinkState.lastBlinkTime < BLINK_COOLDOWN_MS) :
    ((blinkRun (cs ++ [o1, o2]) sess).state.completedSteps.count LivenessStep.BLINK
        = sess.state.completedSteps.count LivenessStep.BLINK + 1 ∧
     (blinkRun (cs ++ [o1, o2]) sess).state.blinkState.blinkDetected = true ∧
     (blinkRun (cs ++ [o1, o2]) sess).state.blinkState.lastBlinkTime = o2.2) ∧
    ((blinkRun (cs2 ++ [o3]) sess).state.completedSteps.count LivenessStep.BLINK
        = sess.state.completedSteps.count LivenessStep.BLINK ∧
     (blinkRun (cs2 ++ [o3]) sess).state.blinkState.closedFrameCount = 0) := by
  constructor
  · have hne : cs ≠ [] := by
      intro h
      rw [h] at hlen
      exact absurd hlen (by decide)
    rw [blinkRun_append, blinkClosedRun cs sess hcal hcs hne]
    set mid := setBlinkState sess
      { sess.state.blinkState with
        closedFrameCount := sess.state.blinkState.closedFrameCount + cs.length
        openFrameCount := 0
        eyeState := EyeState.CLOSED } with hmid_def
    have hstep1 : blinkRun [o1, o2] mid = blinkFrame o2.1 o2.2 (blinkFrame o1.1 o1.2 mid) := rfl
    have hclosed1 : CLOSED_FRAME_THRESHOLD ≤ mid.state.blinkState.closedFrameCount := by
      show CLOSED_FRAME_THRESHOLD ≤ sess.state.blinkState.closedFrameCount + cs.length
      have : CLOSED_FRAME_THRESHOLD ≤ cs.length := hlen
      omega
    have hfr1 := blinkFrame_openNoFire o1.1 o1.2 mid hcal ho1.2 ho1.1 hclosed1
      (by show ¬ OPEN_FRAME_THRESHOLD ≤ 0 + 1; decide)
    rw [hstep1, hfr1]
    set mid2 := setBlinkState mid
      { mid.state.blinkState with
        openFrameCount := mid.state.blinkState.openFrameCount + 1
        eyeState := EyeState.OPEN } with hmid2_def
    have hfr2 := blinkFrame_openFire o2.1 o2.2 mid2 hcal ho2.2 ho2.1 hclosed1
      (by show OPEN_FRAME_THRESHOLD ≤ (0 + 1) + 1; decide)
    rw [hfr2]
    refine ⟨?_, ?_, ?_⟩
    · rw [completeStep_completedSteps]
      show (sess.state.completedSteps ++ [LivenessStep.BLINK]).count LivenessStep.BLINK = _
      simp [List.count_append]
    · rw [completeStep_blinkState]
      rfl
    · rw [completeStep_blinkState]
      rfl
  · by_cases hps : cs2 = []
    · subst hps
      have hrun : blinkRun ([] ++ [o3]) sess = blinkFrame o3.1 o3.2 sess := rfl
      rw [hrun, blinkFrame_openReset o3.1 o3.2 sess hcal ho3.2 ho3.1
        (by rw [hc0]; decide)]
      exact ⟨rfl, rfl⟩
    · rw [blinkRun_append, blinkClosedRun cs2 sess hcal hcs2 hps]
      set mid := setBlinkState sess
        { sess.state.blinkState with
          closedFrameCount := sess.state.blinkState.closedFrameCount + cs2.length
          openFrameCount := 0
          eyeState := EyeState.CLOSED } with hmid_def
      have hnc : ¬ CLOSED_FRAME_THRESHOLD ≤ mid.state.blinkState.closedFrameCount := by
        show ¬ CLOSED_FRAME_THRESHOLD ≤ sess.state.blinkState.closedFrameCount + cs2.length
        rw [hc0]
        omega
      have hrun : blinkRun [o3] mid = blinkFrame o3.1 o3.2 mid := rfl
      rw [hrun, blinkFrame_openReset o3.1 o3.2 mid hcal ho3.2 ho3.1 hnc]
      exact ⟨rfl, rfl⟩

/-- Concrete calibrated session for the C3 witness: baseline 0.30,
threshold 0.195, last blink at time 0. -/
def calibratedSession : Session :=
  { state := { initialState with
      blinkState := { initialBlinkState with
        isCalibrating := false
        openEARBaseline := mkRat 3 10
        closedThreshold := mkRat 39 200
        eyeState := EyeState.OPEN } }
    smoothedEAR := mkRat 3 10
    currentMetrics := none
    antiSpoof := createAntiSpoofState
    pendingSteps := [] }

/-- Witness for C3: two CLOSED frames (EAR 0.10) then two OPEN frames
(EAR 0.30) at time 1000 fire exactly one blink; one CLOSED frame then an
OPEN frame resets the closed counter with no event. -/
theorem C3_blink_cycle_witness :
    (blinkRun ([(mkRat 1 10, (1000 : ℚ)), (mkRat 1 10, 1000)]
        ++ [(mkRat 3 10, 1000), (mkRat 3 10, 1000)]) calibratedSession).state.completedSteps.count
        LivenessStep.BLINK
      = calibratedSession.state.completedSteps.count LivenessStep.BLINK + 1 ∧
    (blinkRun ([(mkRat 1 10, (1000 : ℚ))] ++ [(mkRat 3 10, 1000)])
        calibratedSession).state.completedSteps.count LivenessStep.BLINK
      = calibratedSession.state.completedSteps.count LivenessStep.BLINK ∧
    (blinkRun ([(mkRat 1 10, (1000 : ℚ))] ++ [(mkRat 3 10, 1000)])
        calibratedSession).state.blinkState.closedFrameCount = 0 := by
  have h := C3_blink_cycle calibratedSession
    [(mkRat 1 10, 1000), (mkRat 1 10, 1000)] (mkRat 3 10, 1000) (mkRat 3 10, 1000)
    [(mkRat 1 10, 1000)] (mkRat 3 10, 1000)
    rfl (by decide) (by decide) (by decide) (by decide) rfl (by decide) (by decide) (by decide)
  exact ⟨h.1.1, h.2.1, h.2.2⟩

/-! ## Claim C4 -/

/-- A roll-acceptable TURN_LEFT frame that meets the yaw-delta target
while the held count stays below POSE_HELD_FRAMES increments the held
counter. -/
theorem processHeadTurnWith_left_hold (pose : PoseMetrics) (ear : EarData)
    (bbox : BoundingBox) (b : BaselineMetrics) (now : ℚ) (sess : Session)
    (hroll : isRollAcceptable pose.rollMetric ROLL_WARNING_THRESHOLD = true)
    (htarget : getYawDelta pose.yawMetric b.yawMetric ≤ qneg YAW_THRESHOLD)
    (hheld : ¬ POSE_HELD_FRAMES ≤ sess.state.headPoseState.heldFrames + 1) :
    processHeadTurnWith pose ear bbox b LivenessStep.TURN_LEFT now sess
      = { sess with
          currentMetrics := some (mkFaceMetrics bbox pose ear)
          state := { sess.state with
            error := none
            headPoseState :=
              { heldFrames := sess.state.headPoseState.heldFrames + 1
                targetReached := true } } } := by
  unfold processHeadTurnWith
  simp [hroll, htarget, hheld]

/-- The TURN_LEFT frame that reaches POSE_HELD_FRAMES completes the step. -/
theorem processHeadTurnWith_left_fire (pose : PoseMetrics) (ear : EarData)
    (bbox : BoundingBox) (b : BaselineMetrics) (now : ℚ) (sess : Session)
    (hroll : isRollAcceptable pose.rollMetric ROLL_WARNING_THRESHOLD = true)
    (htarget : getYawDelta pose.yawMetric b.yawMetric ≤ qneg YAW_THRESHOLD)
    (hheld : POSE_HELD_FRAMES ≤ sess.state.headPoseState.heldFrames + 1) :
    processHeadTurnWith pose ear bbox b LivenessStep.TURN_LEFT now sess
      = completeStep LivenessStep.TURN_LEFT now
          { sess with
            currentMetrics := some (mkFaceMetrics bbox pose ear)
            state := { sess.state with error := none } } := by
  unfold processHeadTurnWith
  simp [hroll, htarget, hheld]

/-- A roll-acceptable TURN_LEFT frame that misses the yaw-delta target
resets the held counter to the initial head-pose state. -/
theorem processHeadTurnWith_left_miss (pose : PoseMetrics) (ear : EarData)
    (bbox : BoundingBox) (b : BaselineMetrics) (now : ℚ) (sess : Session)
    (hroll : isRollAcceptable pose.rollMetric ROLL_WARNING_THRESHOLD = true)
    (htarget : ¬ getYawDelta pose.yawMetric b.yawMetric ≤ qneg YAW_THRESHOLD) :
    processHeadTurnWith pose ear bbox b LivenessStep.TURN_LEFT now sess
      = { sess with
          currentMetrics := some (mkFaceMetrics bbox pose ear)
          state := { sess.state with
            error := none
            headPoseState := initialHeadPoseState } } := by
  unfold processHeadTurnWith
  simp [hroll, htarget]

theorem headTurnRun_cons (p : PoseMetrics × EarData × BoundingBox × ℚ)
    (ps : List (PoseMetrics × EarData × BoundingBox × ℚ)) (step : LivenessStep)
    (sess : Session) :
    headTurnRun (p :: ps) step sess
      = headTurnRun ps step (headTurnFrame p.1 p.2.1 p.2.2.1 step p.2.2.2 sess) := rfl

theorem headTurnRun_append (xs ys : List (PoseMetrics × EarData × BoundingBox × ℚ))
    (step : LivenessStep) (sess : Session) :
    headTurnRun (xs ++ ys) step sess = headTurnRun ys step (headTurnRun xs step sess) := by
  simp [headTurnRun, List.foldl_append]

theorem headTurnFrame_some (p : PoseMetrics × EarData × BoundingBox × ℚ)
    (step : LivenessStep) (sess : Session) (b : BaselineMetrics)
    (hb : sess.state.baselineMetrics = some b) :
    headTurnFrame p.1 p.2.1 p.2.2.1 step p.2.2.2 sess
      = processHeadTurnWith p.1 p.2.1 p.2.2.1 b step p.2.2.2 sess := by
  unfold headTurnFrame
  rw [hb]

/-- A nonempty run of on-target (yaw delta -0.10, acceptable roll)
TURN_LEFT frames below the held-frame requirement accumulates its
length into heldFrames against a yaw-0 baseline. -/
theorem headTurnRun_hold (ps : List (PoseMetrics × EarData × BoundingBox × ℚ)) :
    ∀ (sess : Session) (b : BaselineMetrics),
      sess.state.baselineMetrics = some b →
      b.yawMetric = 0 →
      (∀ p ∈ ps, p.1.yawMetric = mkRat (-1) 10 ∧
        isRollAcceptable p.1.rollMetric ROLL_WARNING_THRESHOLD = true) →
      sess.state.headPoseState.heldFrames + ps.length < POSE_HELD_FRAMES →
      (hne : ps ≠ []) →
      headTurnRun ps LivenessStep.TURN_LEFT sess
        = { sess with
            currentMetrics := some (mkFaceMetrics (ps.getLast hne).2.2.1 (ps.getLast hne).1
              (ps.getLast hne).2.1)
            state := { sess.state with
              error := none
              headPoseState :=
                { heldFrames := sess.state.headPoseState.heldFrames + ps.length
                  targetReached := true } } } := by
  induction ps with
  | nil => intro sess b _ _ _ _ hne; exact absurd rfl hne
  | cons p ps ih =>
    intro sess b hb hby hin hcnt hne
    rw [headTurnRun_cons, headTurnFrame_some p LivenessStep.TURN_LEFT sess b hb]
    have hp := hin p (List.mem_cons_self p ps)
    have htarget : getYawDelta p.1.yawMetric b.yawMetric ≤ qneg YAW_THRESHOLD := by
      rw [hp.1, hby]
      decide
    have hheld : ¬ POSE_HELD_FRAMES ≤ sess.state.headPoseState.heldFrames + 1 := by
      simp only [List.length_cons] at hcnt
      omega
    rw [processHeadTurnWith_left_hold p.1 p.2.1 p.2.2.1 b p.2.2.2 sess hp.2 htarget hheld]
    by_cases hps : ps = []
    · subst hps
      rfl
    · set sess1 : Session :=
        { sess with
          currentMetrics := some (mkFaceMetrics p.2.2.1 p.1 p.2.1)
          state := { sess.state with
            error := none
            headPoseState :=
              { heldFrames := sess.state.headPoseState.heldFrames + 1
                targetReached := true } } } with hsess1
      have hb1 : sess1.state.baselineMetrics = some b := hb
      have hin' : ∀ q ∈ ps, q.1.yawMetric = mkRat (-1) 10 ∧
          isRollAcceptable q.1.rollMetric ROLL_WARNING_THRESHOLD = true :=
        fun q hq => hin q (List.mem_cons_of_mem p hq)
      have hcnt1 : sess1.state.headPoseState.heldFrames + ps.length < POSE_HELD_FRAMES := by
        show sess.state.headPoseState.heldFrames + 1 + ps.length < POSE_HELD_FRAMES
        simp only [List.length_cons] at hcnt
        omega
      rw [ih sess1 b hb1 hby hin' hcnt1 hps]
      have hlast : (p :: ps).getLast hne = ps.getLast hps := List.getLast_cons hps
      rw [hlast]
      have ecnt : sess.state.headPoseState.heldFrames + 1 + ps.length
          = sess.state.headPoseState.heldFrames + (p :: ps).length := by
        simp only [List.length_cons]
        omega
      show ({ sess with
          currentMetrics := some (mkFaceMetrics (ps.getLast hps).2.2.1 (ps.getLast hps).1
            (ps.getLast hps).2.1)
          state := { sess.state with
            error := none
            headPoseState :=
              { heldFrames := sess.state.headPoseState.heldFrames + 1 + ps.length
                targetReached := true } } } : Session) = _
      rw [ecnt]

/-- C4: in TURN_LEFT with a captured baseline of yaw 0, frames with
constant yaw delta -0.10 and acceptable roll held for POSE_HELD_FRAMES
consecutive frames complete TURN_LEFT exactly once and append the delta
-0.10 to the session's yaw-delta history; interposing a frame with yaw
delta 0 after fewer than POSE_HELD_FRAMES on-target frames resets the
held counter to 0 with no completion. -/
theorem C4_turn_left_held (sess : Session) (b : BaselineMetrics)
    (ps : List (PoseMetrics × EarData × BoundingBox × ℚ))
    (p0 : PoseMetrics × EarData × BoundingBox × ℚ)
    (hb : sess.state.baselineMetrics = some b)
    (hby : b.yawMetric = 0)
    (hheld0 : sess.state.headPoseState.heldFrames = 0)
    (hlen : ps.length = POSE_HELD_FRAMES)
    (hps : ∀ p ∈ ps, p.1.yawMetric = mkRat (-1) 10 ∧
      isRollAcceptable p.1.rollMetric ROLL_WARNING_THRESHOLD = true)
    (hp0 : p0.1.yawMetric = 0 ∧
      isRollAcceptable p0.1.rollMetric ROLL_WARNING_THRESHOLD = true) :
    ((headTurnRun ps LivenessStep.TURN_LEFT sess).state.completedSteps.count
        LivenessStep.TURN_LEFT
      = sess.state.completedSteps.count LivenessStep.TURN_LEFT + 1 ∧
     (headTurnRun ps LivenessStep.TURN_LEFT sess).state.yawDeltas
      = sess.state.yawDeltas ++ [mkRat (-1) 10]) ∧
    (∀ k, k < POSE_HELD_FRAMES →
      (headTurnRun (ps.take k ++ [p0]) LivenessStep.TURN_LEFT sess).state.headPoseState.heldFrames
        = 0 ∧
      (headTurnRun (ps.take k ++ [p0]) LivenessStep.TURN_LEFT sess).state.completedSteps.count
        LivenessStep.TURN_LEFT
        = sess.state.completedSteps.count LivenessStep.TURN_LEFT) := by
  have hmiss : ∀ s : Session, s.state.baselineMetrics = some b →
      headTurnFrame p0.1 p0.2.1 p0.2.2.1 LivenessStep.TURN_LEFT p0.2.2.2 s
        = { s with
            currentMetrics := some (mkFaceMetrics p0.2.2.1 p0.1 p0.2.1)
            state := { s.state with
              error := none
              headPoseState := initialHeadPoseState } } := by
    intro s hbs
    rw [headTurnFrame_some p0 LivenessStep.TURN_LEFT s b hbs]
    refine processHeadTurnWith_left_miss p0.1 p0.2.1 p0.2.2.1 b p0.2.2.2 s hp0.2 ?_
    rw [hp0.1, hby]
    decide
  constructor
  · have hne : ps ≠ [] := by
      intro h
      rw [h] at hlen
      exact absurd hlen (by decide)
    have hfback : ps.dropLast ++ [ps.getLast hne] = ps := List.dropLast_append_getLast hne
    have hdlen : ps.dropLast.length = 3 := by
      have hdl := List.length_dropLast ps
      have h4 : ps.length = 4 := hlen
      omega
    have hdne : ps.dropLast ≠ [] := by
      intro h
      rw [h] at hdlen
      exact absurd hdlen (by decide)
    rw [← hfback, headTurnRun_append]
    rw [headTurnRun_hold ps.dropLast sess b hb hby
      (fun q hq => hps q (List.dropLast_subset ps hq))
      (by rw [hheld0, hdlen]; decide) hdne]
    set mid : Session :=
      { sess with
        currentMetrics := some (mkFaceMetrics (ps.dropLast.getLast hdne).2.2.1
          (ps.dropLast.getLast hdne).1 (ps.dropLast.getLast hdne).2.1)
        state := { sess.state with
          error := none
          headPoseState :=
            { heldFrames := sess.state.headPoseState.heldFrames + ps.dropLast.length
              targetReached := true } } } with hmid_def
    have hbmid : mid.state.baselineMetrics = some b := hb
    have hstep : headTurnRun [ps.getLast hne] LivenessStep.TURN_LEFT mid
        = headTurnFrame (ps.getLast hne).1 (ps.getLast hne).2.1 (ps.getLast hne).2.2.1
            LivenessStep.TURN_LEFT (ps.getLast hne).2.2.2 mid := rfl
    have hplast := hps (ps.getLast hne) (List.getLast_mem hne)
    have hheld4 : POSE_HELD_FRAMES ≤ mid.state.headPoseState.heldFrames + 1 := by
      show POSE_HELD_FRAMES ≤ sess.state.headPoseState.heldFrames + ps.dropLast.length + 1
      rw [hheld0, hdlen]
      decide
    rw [hstep, headTurnFrame_some (ps.getLast hne) LivenessStep.TURN_LEFT mid b hbmid,
      processHeadTurnWith_left_fire (ps.getLast hne).1 (ps.getLast hne).2.1
        (ps.getLast hne).2.2.1 b (ps.getLast hne).2.2.2 mid hplast.2
        (by rw [hplast.1, hby]; decide) hheld4]
    constructor
    · rw [completeStep_completedSteps]
      show (sess.state.completedSteps ++ [LivenessStep.TURN_LEFT]).count LivenessStep.TURN_LEFT
        = _
      simp [List.count_append]
    · rw [completeStep_yawDeltas_left LivenessStep.TURN_LEFT (ps.getLast hne).2.2.2
        { mid with
          currentMetrics := some (mkFaceMetrics (ps.getLast hne).2.2.1 (ps.getLast hne).1
            (ps.getLast hne).2.1)
          state := { mid.state with error := none } }
        (mkFaceMetrics (ps.getLast hne).2.2.1 (ps.getLast hne).1 (ps.getLast hne).2.1) b
        rfl hb (Or.inl rfl)]
      have hval : getYawDelta (mkFaceMetrics (ps.getLast hne).2.2.1 (ps.getLast hne).1
          (ps.getLast hne).2.1).yawMetric b.yawMetric = mkRat (-1) 10 := by
        show getYawDelta (ps.getLast hne).1.yawMetric b.yawMetric = mkRat (-1) 10
        rw [hplast.1, hby]
        decide
      rw [hval]
  · intro k hk
    by_cases htk : ps.take k = []
    · rw [htk]
      have hrun : headTurnRun ([] ++ [p0]) LivenessStep.TURN_LEFT sess
          = headTurnFrame p0.1 p0.2.1 p0.2.2.1 LivenessStep.TURN_LEFT p0.2.2.2 sess := rfl
      rw [hrun, hmiss sess hb]
      exact ⟨rfl, rfl⟩
    · have htlen : (ps.take k).length < POSE_HELD_FRAMES := by
        have := List.length_take k ps
        have h4 : ps.length = 4 := hlen
        have hk4 : k < 4 := hk
        omega
      rw [headTurnRun_append,
        headTurnRun_hold (ps.take k) sess b hb hby
          (fun q hq => hps q (List.take_subset k ps hq))
          (by rw [hheld0]; omega) htk]
      set mid : Session :=
        { sess with
          currentMetrics := some (mkFaceMetrics ((ps.take k).getLast htk).2.2.1
            ((ps.take k).getLast htk).1 ((ps.take k).getLast htk).2.1)
          state := { sess.state with
            error := none
            headPoseState :=
              { heldFrames := sess.state.headPoseState.heldFrames + (ps.take k).length
                targetReached := true } } } with hmid_def
      have hbmid : mid.state.baselineMetrics = some b := hb
      have hrun : headTurnRun [p0] LivenessStep.TURN_LEFT mid
          = headTurnFrame p0.1 p0.2.1 p0.2.2.1 LivenessStep.TURN_LEFT p0.2.2.2 mid := rfl
      rw [hrun, hmiss mid hbmid]
      exact ⟨rfl, rfl⟩

/-- Session sitting in TURN_LEFT with a captured yaw-0 baseline, for the
C4 witness. -/
def turnSession : Session :=
  { state := { initialState with
      currentStep := LivenessStep.TURN_LEFT
      baselineMetrics := some ⟨0, 0, 0, 40, 40, mkRat 3 10⟩ }
    smoothedEAR := mkRat 3 10
    currentMetrics := none
    antiSpoof := createAntiSpoofState
    pendingSteps := [] }

/-- On-target TURN_LEFT frame: yaw metric -0.10, level roll. -/
def turnFrameL : PoseMetrics × EarData × BoundingBox × ℚ :=
  (⟨mkRat (-1) 10, 0, 0, 40, 40⟩, ⟨mkRat 3 10, mkRat 3 10, mkRat 3 10⟩, ⟨10, 10, 40, 40⟩, 0)

/-- Off-target frame: yaw metric back to 0 (yaw delta 0), level roll. -/
def turnFrameZ : PoseMetrics × EarData × BoundingBox × ℚ :=
  (⟨0, 0, 0, 40, 40⟩, ⟨mkRat 3 10, mkRat 3 10, mkRat 3 10⟩, ⟨10, 10, 40, 40⟩, 0)

/-- Witness for C4: four on-target frames complete TURN_LEFT once and
record the -0.10 delta; two on-target frames then a zero-delta frame
reset the held counter to 0. -/
theorem C4_turn_left_held_witness :
    (headTurnRun (List.replicate 4 turnFrameL) LivenessStep.TURN_LEFT
        turnSession).state.completedSteps.count LivenessStep.TURN_LEFT
      = turnSession.state.completedSteps.count LivenessStep.TURN_LEFT + 1 ∧
    (headTurnRun (List.replicate 4 turnFrameL) LivenessStep.TURN_LEFT
        turnSession).state.yawDeltas
      = turnSession.state.yawDeltas ++ [mkRat (-1) 10] ∧
    (headTurnRun ((List.replicate 4 turnFrameL).take 2 ++ [turnFrameZ])
        LivenessStep.TURN_LEFT turnSession).state.headPoseState.heldFrames = 0 := by
  have h := C4_turn_left_held turnSession ⟨0, 0, 0, 40, 40, mkRat 3 10⟩
    (List.replicate 4 turnFrameL) turnFrameZ rfl rfl rfl (by decide) (by decide) (by decide)
  exact ⟨h.1.1, h.1.2, (h.2 2 (by decide)).1⟩

/-! ## Claim C10 -/

/-- Unfolding of updateAntiSpoofState in the warm-up regime: histories
below their caps, post-append history still below MIN_FRAMES_FOR_CHECK.
Only the three histories change. -/
theorem updateAntiSpoofState_warmup_eq (now : ℚ) (s : AntiSpoofState) (f : Face)
    (hlen : s.frameHistory.length + 1 < MIN_FRAMES_FOR_CHECK)
    (hdv : s.depthVariances.length < MAX_HISTORY_FRAMES)
    (hmv : s.movementScores.length < MAX_HISTORY_FRAMES) :
    updateAntiSpoofState now s f = { s with
      frameHistory := s.frameHistory ++ [createFrameSnapshot now f]
      depthVariances := s.depthVariances ++ [(createFrameSnapshot now f).zVariance]
      movementScores :=
        match s.frameHistory.getLast? with
        | some prevSnapshot =>
          s.movementScores ++ [calculateMicroMovement (createFrameSnapshot now f) prevSnapshot]
        | none => s.movementScores } := by
  simp only [updateAntiSpoofState]
  have e1 : ¬ MAX_HISTORY_FRAMES < (s.frameHistory ++ [createFrameSnapshot now f]).length := by
    rw [List.length_append, List.length_singleton]
    have h10 : s.frameHistory.length + 1 < 10 := hlen
    show ¬ 30 < s.frameHistory.length + 1
    omega
  have e2 : ¬ MAX_HISTORY_FRAMES <
      (s.depthVariances ++ [(createFrameSnapshot now f).zVariance]).length := by
    rw [List.length_append, List.length_singleton]
    have h30 : s.depthVariances.length < 30 := hdv
    show ¬ 30 < s.depthVariances.length + 1
    omega
  have e4 : (s.frameHistory ++ [createFrameSnapshot now f]).length < MIN_FRAMES_FOR_CHECK := by
    rw [List.length_append, List.length_singleton]
    exact hlen
  rw [if_neg e1, if_neg e2]
  rcases hgl : s.frameHistory.getLast? with _ | prev
  · dsimp only
    rw [if_pos e4]
  · dsimp only
    have e3 : ¬ MAX_HISTORY_FRAMES <
        (s.movementScores ++ [calculateMicroMovement (createFrameSnapshot now f) prev]).length := by
      rw [List.length_append, List.length_singleton]
      have h30 : s.movementScores.length < 30 := hmv
      show ¬ 30 < s.movementScores.length + 1
      omega
    rw [if_neg e3, if_pos e4]

/-- Warm-up run: while strictly fewer than MIN_FRAMES_FOR_CHECK frames
have accumulated, the analyzer only appends to its histories and the
verdict fields keep their values. -/
theorem antiSpoofRun_warmup (now : ℚ) (faces : List Face) :
    ∀ s : AntiSpoofState,
      s.frameHistory.length + faces.length < MIN_FRAMES_FOR_CHECK →
      s.depthVariances.length = s.frameHistory.length →
      s.movementScores.length ≤ s.frameHistory.length →
      (antiSpoofRun now faces s).spoofScore = s.spoofScore ∧
      (antiSpoofRun now faces s).isSpoof = s.isSpoof ∧
      (antiSpoofRun now faces s).reason = s.reason ∧
      (antiSpoofRun now faces s).frameHistory.length
          = s.frameHistory.length + faces.length ∧
      (antiSpoofRun now faces s).depthVariances.length
          = (antiSpoofRun now faces s).frameHistory.length ∧
      (antiSpoofRun now faces s).movementScores.length
          ≤ (antiSpoofRun now faces s).frameHistory.length := by
  induction faces with
  | nil =>
    intro s h1 h2 h3
    exact ⟨rfl, rfl, rfl, by simp [antiSpoofRun], by simpa [antiSpoofRun] using h2,
      by simpa [antiSpoofRun] using h3⟩
  | cons f fs ih =>
    intro s h1 h2 h3
    simp only [List.length_cons] at h1
    have h1n : s.frameHistory.length + (fs.length + 1) < 10 := h1
    have hstep := updateAntiSpoofState_warmup_eq now s f
      (show s.frameHistory.length + 1 < 10 by omega)
      (show s.depthVariances.length < 30 by omega)
      (show s.movementScores.length < 30 by omega)
    have hrun : antiSpoofRun now (f :: fs) s = antiSpoofRun now fs (updateAntiSpoofState now s f) := rfl
    rw [hrun, hstep]
    have hlen' : (s.frameHistory ++ [createFrameSnapshot now f]).length = s.frameHistory.length + 1 := by
      simp
    have hmv' : (match s.frameHistory.getLast? with
        | some prevSnapshot =>
          s.movementScores ++ [calculateMicroMovement (createFrameSnapshot now f) prevSnapshot]
        | none => s.movementScores).length ≤ s.frameHistory.length + 1 := by
      rcases hgl : s.frameHistory.getLast? with _ | prev
      · simp only
        omega
      · simp only [List.length_append, List.length_singleton]
        omega
    obtain ⟨g1, g2, g3, g4, g5, g6⟩ := ih
      { s with
        frameHistory := s.frameHistory ++ [createFrameSnapshot now f]
        depthVariances := s.depthVariances ++ [(createFrameSnapshot now f).zVariance]
        movementScores :=
          match s.frameHistory.getLast? with
          | some prevSnapshot =>
            s.movementScores ++ [calculateMicroMovement (createFrameSnapshot now f) prevSnapshot]
          | none => s.movementScores }
      (show (s.frameHistory ++ [createFrameSnapshot now f]).length + fs.length < 10 by
        rw [List.length_append, List.length_singleton]; omega)
      (by simp only [List.length_append, List.length_singleton]; omega)
      (by simpa only [hlen'] using hmv')
    refine ⟨g1, g2, g3, ?_, g5, g6⟩
    rw [g4, hlen']
    simp only [List.length_cons]
    omega

/-- C10: below MIN_FRAMES_FOR_CHECK frames of history the analyzer only
appends the snapshot, depth variance and (from the second frame on)
movement score, leaving spoofScore, isSpoof and reason unchanged; in
particular, for the first MIN_FRAMES_FOR_CHECK - 1 frames after a fresh
start — and resetAntiSpoofState restarts from the same initial state —
isSpoof stays false with spoofScore 0 and no reason. -/
theorem C10_antiSpoof_warmup (now : ℚ) (s : AntiSpoofState) (f : Face)
    (hlen : s.frameHistory.length + 1 < MIN_FRAMES_FOR_CHECK)
    (hdv : s.depthVariances.length < MAX_HISTORY_FRAMES)
    (hmv : s.movementScores.length < MAX_HISTORY_FRAMES) :
    ((updateAntiSpoofState now s f).spoofScore = s.spoofScore ∧
     (updateAntiSpoofState now s f).isSpoof = s.isSpoof ∧
     (updateAntiSpoofState now s f).reason = s.reason ∧
     (updateAntiSpoofState now s f).frameHistory
        = s.frameHistory ++ [createFrameSnapshot now f] ∧
     (updateAntiSpoofState now s f).depthVariances
        = s.depthVariances ++ [(createFrameSnapshot now f).zVariance] ∧
     (updateAntiSpoofState now s f).movementScores
        = (match s.frameHistory.getLast? with
           | some prevSnapshot =>
             s.movementScores ++ [calculateMicroMovement (createFrameSnapshot now f) prevSnapshot]
           | none => s.movementScores)) ∧
    (∀ faces : List Face, faces.length < MIN_FRAMES_FOR_CHECK →
      (antiSpoofRun now faces createAntiSpoofState).isSpoof = false ∧
      (antiSpoofRun now faces createAntiSpoofState).spoofScore = 0 ∧
      (antiSpoofRun now faces createAntiSpoofState).reason = none) ∧
    resetAntiSpoofState = createAntiSpoofState := by
  refine ⟨?_, ?_, rfl⟩
  · rw [updateAntiSpoofState_warmup_eq now s f hlen hdv hmv]
    exact ⟨rfl, rfl, rfl, rfl, rfl, rfl⟩
  · intro faces hfaces
    obtain ⟨g1, g2, g3, _, _, _⟩ := antiSpoofRun_warmup now faces createAntiSpoofState
      (by simpa [createAntiSpoofState] using hfaces) rfl (le_refl 0)
    exact ⟨g2, g1, g3⟩

/-- Witness for C10: one update on a two-frame history, and a nine-frame
warm-up run from the initial state. -/
theorem C10_antiSpoof_warmup_witness :
    (updateAntiSpoofState 0
        (updateAntiSpoofState 0 createAntiSpoofState ⟨[⟨1, 2, none⟩]⟩)
        ⟨[⟨2, 3, none⟩]⟩).isSpoof
      = (updateAntiSpoofState 0 createAntiSpoofState ⟨[⟨1, 2, none⟩]⟩).isSpoof ∧
    (antiSpoofRun 0 (List.replicate 9 ⟨[⟨1, 2, none⟩]⟩) createAntiSpoofState).isSpoof = false ∧
    (antiSpoofRun 0 (List.replicate 9 ⟨[⟨1, 2, none⟩]⟩) createAntiSpoofState).spoofScore = 0 := by
  have h := C10_antiSpoof_warmup 0
    (updateAntiSpoofState 0 createAntiSpoofState ⟨[⟨1, 2, none⟩]⟩) ⟨[⟨2, 3, none⟩]⟩
    (by decide) (by decide) (by decide)
  exact ⟨h.1.2.1, (h.2.1 (List.replicate 9 ⟨[⟨1, 2, none⟩]⟩) (by decide)).1,
    (h.2.1 (List.replicate 9 ⟨[⟨1, 2, none⟩]⟩) (by decide)).2.1⟩

/-! ## Claim C5 -/

theorem createFrameSnapshot_zVariance (now : ℚ) (f : Face) :
    (createFrameSnapshot now f).zVariance = calculateDepthVariance f := by
  unfold createFrameSnapshot
  split <;> rfl

/-- The micro-movement between identical snapshots is exactly 0. -/
theorem microMovement_self (snap : FrameSnapshot) :
    calculateMicroMovement snap snap = 0 := by
  simp [calculateMicroMovement, qsub_eq, qadd_eq, qmul_eq, qdiv_eq]

theorem getLast?_replicate_succ {α : Type} (k : ℕ) (a : α) :
    (List.replicate (k + 1) a).getLast? = some a := by
  rw [List.replicate_succ']
  exact List.getLast?_concat _

/-- Appending one element to a full-or-below replicate history and
applying the 30-frame cap yields the capped replicate. -/
theorem capAppend {α : Type} (a : α) (m : ℕ) (hm : m ≤ MAX_HISTORY_FRAMES) :
    (if MAX_HISTORY_FRAMES < (List.replicate m a ++ [a]).length
     then (List.replicate m a ++ [a]).tail
     else List.replicate m a ++ [a])
      = List.replicate (min (m + 1) MAX_HISTORY_FRAMES) a := by
  rw [← List.replicate_succ', List.length_replicate]
  by_cases h : MAX_HISTORY_FRAMES < m + 1
  · rw [if_pos h]
    have h30 : m ≤ 30 := hm
    have h30' : 30 < m + 1 := h
    have hmin : min (m + 1) MAX_HISTORY_FRAMES = m := by
      show min (m + 1) 30 = m
      omega
    rw [hmin]
    rfl
  · rw [if_neg h]
    have h30' : ¬ 30 < m + 1 := h
    have hmin : min (m + 1) MAX_HISTORY_FRAMES = m + 1 := by
      show min (m + 1) 30 = m + 1
      omega
    rw [hmin]

/-- Zero depth variances and zero movement scores trigger the depth and
movement indicators (and possibly the static one), pushing the score to
at least 0.7 and the verdict to true. -/
theorem analyzeSpoof_zeros (m1 m2 : ℕ) (h2 : 6 ≤ m2) :
    (analyzeSpoof (List.replicate m1 (0 : ℚ)) (List.replicate m2 (0 : ℚ))).isSpoof = true := by
  have hdv0 : qsum (List.replicate m1 (0 : ℚ)) = 0 := by
    rw [qsum_replicate]; ring
  have hmv0 : qsum (List.replicate m2 (0 : ℚ)) = 0 := by
    rw [qsum_replicate]; ring
  have hq0 : ∀ k : ℕ, qdiv 0 (k : ℚ) = 0 := fun k => by rw [qdiv_eq]; simp
  have h5 : decide (5 < (List.replicate m2 (0 : ℚ)).length) = true :=
    decide_eq_true (by rw [List.length_replicate]; omega)
  simp only [analyzeSpoof, hdv0, hmv0, hq0, h5, List.length_replicate, List.drop_replicate,
    List.filter_replicate]
  have h5' : decide (5 < m2) = true := decide_eq_true (by omega)
  by_cases hst : MAX_STATIC_FRAMES ≤ m2
  · have hs1 : decide (MAX_STATIC_FRAMES ≤ m2) = true := decide_eq_true hst
    have hlen20 : m2 - (m2 - MAX_STATIC_FRAMES) = 20 := by
      have h20 : 20 ≤ m2 := hst
      show m2 - (m2 - 20) = 20
      omega
    simp only [hs1, hlen20, h5']
    decide
  · have hs1 : decide (MAX_STATIC_FRAMES ≤ m2) = false := decide_eq_false hst
    simp only [hs1, Bool.false_and, h5']
    decide

/-- With mean depth variance at or above the floor and mean movement at
or above the floor, neither weighted indicator fires and the verdict is
false (the static indicator alone cannot reach the threshold). -/
theorem analyzeSpoof_high (dv mv : List ℚ)
    (h1 : MIN_DEPTH_VARIANCE ≤ qdiv (qsum dv) (dv.length : ℚ))
    (h2 : qdiv MIN_MICRO_MOVEMENT 100 ≤ qdiv (qsum mv) (mv.length : ℚ)) :
    (analyzeSpoof dv mv).isSpoof = false := by
  have hd : decide (qdiv (qsum dv) (dv.length : ℚ) < MIN_DEPTH_VARIANCE) = false :=
    decide_eq_false (not_lt.mpr h1)
  have hm : decide (qdiv (qsum mv) (mv.length : ℚ) < qdiv MIN_MICRO_MOVEMENT 100) = false :=
    decide_eq_false (not_lt.mpr h2)
  simp only [analyzeSpoof, hd, hm, Bool.and_false, Bool.false_eq_true, if_false]
  split <;> decide

/-- The spoof score is exactly the sum of the fixed weights of the
triggered indicators, and the verdict holds exactly when that sum
reaches SPOOF_THRESHOLD. -/
theorem analyzeSpoof_score_formula (dv mv : List ℚ) :
    (analyzeSpoof dv mv).spoofScore
      = (if qdiv (qsum dv) (dv.length : ℚ) < MIN_DEPTH_VARIANCE
          then DEPTH_CHECK_WEIGHT else 0)
        + ((if 5 < mv.length ∧ qdiv (qsum mv) (mv.length : ℚ) < qdiv MIN_MICRO_MOVEMENT 100
          then MOVEMENT_CHECK_WEIGHT else 0)
        + (if MAX_STATIC_FRAMES ≤ mv.length ∧
              qmul (MAX_STATIC_FRAMES : ℚ) (mkRat 4 5)
                < (((mv.drop (mv.length - MAX_STATIC_FRAMES)).filter
                    (fun m => decide (m < mkRat 1 1000))).length : ℚ)
          then STATIC_CHECK_WEIGHT else 0)) ∧
    ((analyzeSpoof dv mv).isSpoof = true ↔
      SPOOF_THRESHOLD ≤ (analyzeSpoof dv mv).spoofScore) := by
  constructor
  · simp only [analyzeSpoof, qadd_eq, Bool.and_eq_true, decide_eq_true_eq, add_assoc]
  · simp only [analyzeSpoof, decide_eq_true_eq]

/-- State of the analyzer after n identical frames of a depth-flat face:
capped replicate histories of the one snapshot, all-zero variance and
movement lists, and a true verdict as soon as the history reaches
MIN_FRAMES_FOR_CHECK. -/
theorem antiSpoofRun_flat (now : ℚ) (f : Face) (hdvf : calculateDepthVariance f = 0) :
    ∀ n : ℕ,
      (antiSpoofRun now (List.replicate n f) createAntiSpoofState).frameHistory
        = List.replicate (min n MAX_HISTORY_FRAMES) (createFrameSnapshot now f) ∧
      (antiSpoofRun now (List.replicate n f) createAntiSpoofState).depthVariances
        = List.replicate (min n MAX_HISTORY_FRAMES) 0 ∧
      (antiSpoofRun now (List.replicate n f) createAntiSpoofState).movementScores
        = List.replicate (min (n - 1) MAX_HISTORY_FRAMES) 0 ∧
      (MIN_FRAMES_FOR_CHECK ≤ n →
        (antiSpoofRun now (List.replicate n f) createAntiSpoofState).isSpoof = true) := by
  intro n
  induction n with
  | zero =>
    refine ⟨rfl, rfl, rfl, ?_⟩
    intro h
    exact absurd h (by decide)
  | succ k ih =>
    obtain ⟨i1, i2, i3, _⟩ := ih
    have hsplit : List.replicate (k + 1) f = List.replicate k f ++ [f] :=
      List.replicate_succ' k f
    have hrun : antiSpoofRun now (List.replicate (k + 1) f) createAntiSpoofState
        = updateAntiSpoofState now
            (antiSpoofRun now (List.replicate k f) createAntiSpoofState) f := by
      rw [hsplit]
      simp [antiSpoofRun, List.foldl_append]
    rw [hrun]
    simp only [updateAntiSpoofState, i1, i2, i3]
    rw [createFrameSnapshot_zVariance, hdvf]
    rw [capAppend (createFrameSnapshot now f) (min k MAX_HISTORY_FRAMES)
        (min_le_right k MAX_HISTORY_FRAMES),
      capAppend (0 : ℚ) (min k MAX_HISTORY_FRAMES) (min_le_right k MAX_HISTORY_FRAMES)]
    have em1 : min (min k MAX_HISTORY_FRAMES + 1) MAX_HISTORY_FRAMES
        = min (k + 1) MAX_HISTORY_FRAMES := by
      show min (min k 30 + 1) 30 = min (k + 1) 30
      omega
    rw [em1]
    rcases Nat.eq_zero_or_pos k with hk0 | hkpos
    · subst hk0
      refine ⟨?_, ?_, ?_, ?_⟩
      · split <;> rfl
      · split <;> rfl
      · split <;> rfl
      · intro habs
        exact absurd habs (by decide)
    · have hksucc : min k MAX_HISTORY_FRAMES = (min k MAX_HISTORY_FRAMES - 1) + 1 := by
        show min k 30 = min k 30 - 1 + 1
        omega
      rw [hksucc, getLast?_replicate_succ]
      simp only [microMovement_self]
      rw [capAppend (0 : ℚ) (min (k - 1) MAX_HISTORY_FRAMES)
        (min_le_right (k - 1) MAX_HISTORY_FRAMES)]
      have em2 : min (min (k - 1) MAX_HISTORY_FRAMES + 1) MAX_HISTORY_FRAMES
          = min (k + 1 - 1) MAX_HISTORY_FRAMES := by
        show min (min (k - 1) 30 + 1) 30 = min (k + 1 - 1) 30
        omega
      rw [em2]
      refine ⟨?_, ?_, ?_, ?_⟩
      · split <;> rfl
      · split <;> rfl
      · split <;> rfl
      · intro hmin
        have h10 : 10 ≤ k + 1 := hmin
        split
        · rename_i hwarm
          rw [List.length_replicate] at hwarm
          have : min (k + 1) MAX_HISTORY_FRAMES < 10 := hwarm
          have : min (k + 1) 30 < 10 := this
          omega
        · show (analyzeSpoof (List.replicate (min (k + 1) MAX_HISTORY_FRAMES) 0)
              (List.replicate (min (k + 1 - 1) MAX_HISTORY_FRAMES) 0)).isSpoof = true
          apply analyzeSpoof_zeros
          show 6 ≤ min (k + 1 - 1) 30
          omega

/-- Either the updated history is still short of MIN_FRAMES_FOR_CHECK, or
the updated verdict is the analyzer verdict on the updated lists. -/
theorem updateAntiSpoofState_cases (now : ℚ) (s : AntiSpoofState) (g : Face) :
    (updateAntiSpoofState now s g).frameHistory.length < MIN_FRAMES_FOR_CHECK ∨
    (updateAntiSpoofState now s g).isSpoof
      = (analyzeSpoof (updateAntiSpoofState now s g).depthVariances
          (updateAntiSpoofState now s g).movementScores).isSpoof := by
  simp only [updateAntiSpoofState]
  split
  · split
    · rename_i h1 h2
      exact Or.inl h2
    · exact Or.inr rfl
  · split
    · rename_i h1 h2
      exact Or.inl h2
    · exact Or.inr rfl

/-- Depth-flat two-keypoint face used to instantiate the C5 witness. -/
def flatFaceC5 : Face := ⟨[⟨10, 10, none⟩, ⟨50, 50, none⟩]⟩

/-- C5: once the history holds MIN_FRAMES_FOR_CHECK frames, a sequence of
identical zero-depth-variance frames (hence zero micro-movement) yields
isSpoof = true; the analyzer applied to accumulated per-frame statistics
whose means clear both floors yields isSpoof = false; the spoof score is
the sum of the fixed weights of the triggered indicators and the verdict
holds exactly when the sum reaches SPOOF_THRESHOLD; and once the updated
history reaches MIN_FRAMES_FOR_CHECK the state verdict is exactly the
analyzer verdict on the state's accumulated lists. -/
theorem C5_antiSpoof_verdict
    (now : ℚ) (f : Face) (n : ℕ) (dv mv : List ℚ)
    (hflat : calculateDepthVariance f = 0)
    (hn : MIN_FRAMES_FOR_CHECK ≤ n)
    (hdv : MIN_DEPTH_VARIANCE ≤ qdiv (qsum dv) (dv.length : ℚ))
    (hmv : qdiv MIN_MICRO_MOVEMENT 100 ≤ qdiv (qsum mv) (mv.length : ℚ)) :
    (antiSpoofRun now (List.replicate n f) createAntiSpoofState).isSpoof = true ∧
    (analyzeSpoof dv mv).isSpoof = false ∧
    ((analyzeSpoof dv mv).spoofScore
      = (if qdiv (qsum dv) (dv.length : ℚ) < MIN_DEPTH_VARIANCE
          then DEPTH_CHECK_WEIGHT else 0)
        + ((if 5 < mv.length ∧ qdiv (qsum mv) (mv.length : ℚ) < qdiv MIN_MICRO_MOVEMENT 100
          then MOVEMENT_CHECK_WEIGHT else 0)
        + (if MAX_STATIC_FRAMES ≤ mv.length ∧
              qmul (MAX_STATIC_FRAMES : ℚ) (mkRat 4 5)
                < (((mv.drop (mv.length - MAX_STATIC_FRAMES)).filter
                    (fun m => decide (m < mkRat 1 1000))).length : ℚ)
          then STATIC_CHECK_WEIGHT else 0))) ∧
    ((analyzeSpoof dv mv).isSpoof = true ↔
      SPOOF_THRESHOLD ≤ (analyzeSpoof dv mv).spoofScore) ∧
    (∀ (s : AntiSpoofState) (g : Face),
      MIN_FRAMES_FOR_CHECK ≤ (updateAntiSpoofState now s g).frameHistory.length →
      (updateAntiSpoofState now s g).isSpoof
        = (analyzeSpoof (updateAntiSpoofState now s g).depthVariances
            (updateAntiSpoofState now s g).movementScores).isSpoof) := by
  refine ⟨(antiSpoofRun_flat now f hflat n).2.2.2 hn,
    analyzeSpoof_high dv mv hdv hmv,
    (analyzeSpoof_score_formula dv mv).1,
    (analyzeSpoof_score_formula dv mv).2, ?_⟩
  intro s g hlen
  rcases updateAntiSpoofState_cases now s g with h | h
  · exact absurd h (not_lt.mpr hlen)
  · exact h

/-- C5 witness: ten identical depth-flat frames are flagged spoofed, and
accumulated statistics with means 1 and 1/100 clear both floors and are
not flagged. -/
theorem C5_antiSpoof_verdict_witness :
    calculateDepthVariance flatFaceC5 = 0 ∧
    MIN_FRAMES_FOR_CHECK ≤ 10 ∧
    (antiSpoofRun 0 (List.replicate 10 flatFaceC5) createAntiSpoofState).isSpoof = true ∧
    (analyzeSpoof (List.replicate 6 1) (List.replicate 6 (mkRat 1 100))).isSpoof = false :=
  ⟨by decide, by decide,
    (C5_antiSpoof_verdict 0 flatFaceC5 10 (List.replicate 6 1)
      (List.replicate 6 (mkRat 1 100)) (by decide) (by decide) (by decide) (by decide)).1,
    (C5_antiSpoof_verdict 0 flatFaceC5 10 (List.replicate 6 1)
      (List.replicate 6 (mkRat 1 100)) (by decide) (by decide) (by decide) (by decide)).2.1⟩

/-! ## C2: the alignment gate -/

/-- Fold a sequence of inside-guide flags through the alignment gate with
a fixed face and time. -/
def alignRun (f : Face) (now : ℚ) (flags : List Bool) (sess : Session) : Session :=
  flags.foldl (fun s b => processAlign f b now s) sess

/-- An out-of-guide frame resets the consecutive counter and changes
nothing else. -/
theorem processAlign_outside (f : Face) (now : ℚ) (sess : Session) :
    processAlign f false now sess
      = { sess with state := { sess.state with alignedFrameCount := 0 } } := rfl

/-- An in-guide frame short of the requirement just increments the
counter. -/
theorem processAlign_inside_incr (f : Face) (now : ℚ) (sess : Session)
    (h : ¬ ALIGN_REQUIRED_FRAMES ≤ sess.state.alignedFrameCount + 1) :
    processAlign f true now sess
      = { sess with state :=
          { sess.state with alignedFrameCount := sess.state.alignedFrameCount + 1 } } := by
  simp only [processAlign, Bool.not_true, Bool.false_eq_true, if_false, if_neg h]

/-- The in-guide frame that reaches the requirement captures the baseline
from the current face and completes ALIGN. -/
theorem processAlign_inside_complete (f : Face) (now : ℚ) (sess : Session)
    (h : ALIGN_REQUIRED_FRAMES ≤ sess.state.alignedFrameCount + 1) :
    processAlign f true now sess
      = completeStep LivenessStep.ALIGN now
          { sess with state := { sess.state with
              alignedFrameCount := sess.state.alignedFrameCount + 1
              baselineMetrics := some
                { yawMetric := (calculatePoseMetrics f).yawMetric
                  pitchMetric := (calculatePoseMetrics f).pitchMetric
                  rollMetric := (calculatePoseMetrics f).rollMetric
                  faceWidth := (calculateBoundingBox f).width
                  faceHeight := (calculateBoundingBox f).height
                  openEAR := (calculateAverageEAR f).avg } } } := by
  simp only [processAlign, Bool.not_true, Bool.false_eq_true, if_false, if_pos h]

/-- Feeding k in-guide frames, k below the requirement, from a zeroed
counter only raises the counter to k. -/
theorem alignRun_inside (f : Face) (now : ℚ) (sess : Session)
    (hc0 : sess.state.alignedFrameCount = 0) :
    ∀ k : ℕ, k < ALIGN_REQUIRED_FRAMES →
      alignRun f now (List.replicate k true) sess
        = { sess with state := { sess.state with alignedFrameCount := k } } := by
  intro k
  induction k with
  | zero =>
    intro _
    have h : ({ sess with state := { sess.state with alignedFrameCount := 0 } } : Session)
        = sess := by
      rw [← hc0]
    rw [h]
    rfl
  | succ m ih =>
    intro hk
    have hm : m < ALIGN_REQUIRED_FRAMES := Nat.lt_of_succ_lt hk
    have hrun : alignRun f now (List.replicate (m + 1) true) sess
        = processAlign f true now (alignRun f now (List.replicate m true) sess) := by
      rw [List.replicate_succ' m true]
      simp [alignRun, List.foldl_append]
    rw [hrun, ih hm, processAlign_inside_incr]
    have hlt : m + 1 < ALIGN_REQUIRED_FRAMES + 1 := by
      have : m + 1 < 12 + 1 := by
        have hk12 : m + 1 < 12 := hk
        omega
      exact this
    intro habs
    have h12 : (12 : ℕ) ≤ m + 1 := habs
    have hk12 : m + 1 < 12 := hk
    omega

/-- C2: from a zeroed counter, ALIGN_REQUIRED_FRAMES - 1 in-guide frames
followed by one out-of-guide frame leave the counter at 0 with no
completion event and no baseline; ALIGN_REQUIRED_FRAMES consecutive
in-guide frames append exactly one ALIGN completion and install a
baseline capturing yaw, pitch, roll, face width/height and open-eye
EAR of the completing face. -/
theorem C2_align_gate (f : Face) (now : ℚ) (sess : Session)
    (hc0 : sess.state.alignedFrameCount = 0) :
    (alignRun f now (List.replicate (ALIGN_REQUIRED_FRAMES - 1) true ++ [false])
      sess).state.alignedFrameCount = 0 ∧
    (alignRun f now (List.replicate (ALIGN_REQUIRED_FRAMES - 1) true ++ [false])
      sess).state.completedSteps = sess.state.completedSteps ∧
    (alignRun f now (List.replicate (ALIGN_REQUIRED_FRAMES - 1) true ++ [false])
      sess).state.baselineMetrics = sess.state.baselineMetrics ∧
    (alignRun f now (List.replicate (ALIGN_REQUIRED_FRAMES - 1) true ++ [false])
      sess).pendingSteps = sess.pendingSteps ∧
    (alignRun f now (List.replicate ALIGN_REQUIRED_FRAMES true) sess).state.completedSteps
      = sess.state.completedSteps ++ [LivenessStep.ALIGN] ∧
    (alignRun f now (List.replicate ALIGN_REQUIRED_FRAMES true) sess).state.baselineMetrics
      = some { yawMetric := (calculatePoseMetrics f).yawMetric
               pitchMetric := (calculatePoseMetrics f).pitchMetric
               rollMetric := (calculatePoseMetrics f).rollMetric
               faceWidth := (calculateBoundingBox f).width
               faceHeight := (calculateBoundingBox f).height
               openEAR := (calculateAverageEAR f).avg } := by
  have h11 : ALIGN_REQUIRED_FRAMES - 1 < ALIGN_REQUIRED_FRAMES := by decide
  have hrun11 := alignRun_inside f now sess hc0 (ALIGN_REQUIRED_FRAMES - 1) h11
  have hA : alignRun f now (List.replicate (ALIGN_REQUIRED_FRAMES - 1) true ++ [false]) sess
      = { sess with state := { sess.state with alignedFrameCount := 0 } } := by
    have hsplitA : alignRun f now
        (List.replicate (ALIGN_REQUIRED_FRAMES - 1) true ++ [false]) sess
        = processAlign f false now
            (alignRun f now (List.replicate (ALIGN_REQUIRED_FRAMES - 1) true) sess) := by
      simp [alignRun, List.foldl_append]
    rw [hsplitA, hrun11, processAlign_outside]
  have hB : alignRun f now (List.replicate ALIGN_REQUIRED_FRAMES true) sess
      = completeStep LivenessStep.ALIGN now
          { sess with state := { sess.state with
              alignedFrameCount := ALIGN_REQUIRED_FRAMES - 1 + 1
              baselineMetrics := some
                { yawMetric := (calculatePoseMetrics f).yawMetric
                  pitchMetric := (calculatePoseMetrics f).pitchMetric
                  rollMetric := (calculatePoseMetrics f).rollMetric
                  faceWidth := (calculateBoundingBox f).width
                  faceHeight := (calculateBoundingBox f).height
                  openEAR := (calculateAverageEAR f).avg } } } := by
    have hsplit : (List.replicate ALIGN_REQUIRED_FRAMES true : List Bool)
        = List.replicate (ALIGN_REQUIRED_FRAMES - 1) true ++ [true] := by decide
    have hsplitB : alignRun f now (List.replicate ALIGN_REQUIRED_FRAMES true) sess
        = processAlign f true now
            (alignRun f now (List.replicate (ALIGN_REQUIRED_FRAMES - 1) true) sess) := by
      rw [hsplit]
      simp [alignRun, List.foldl_append]
    rw [hsplitB, hrun11]
    rw [processAlign_inside_complete f now
      { sess with state := { sess.state with alignedFrameCount := ALIGN_REQUIRED_FRAMES - 1 } }
      (by show ALIGN_REQUIRED_FRAMES ≤ ALIGN_REQUIRED_FRAMES - 1 + 1
          decide)]
  refine ⟨?_, ?_, ?_, ?_, ?_, ?_⟩
  · rw [hA]
  · rw [hA]
  · rw [hA]
  · rw [hA]
  · rw [hB, completeStep_completedSteps]
  · rw [hB, completeStep_baselineMetrics]

/-- Two-keypoint face used to instantiate the C2 witness. -/
def faceC2 : Face := ⟨[⟨10, 10, none⟩, ⟨50, 50, none⟩]⟩

/-- C2 witness: from a fresh session, 11 in-guide frames plus one outside
leave the counter at 0, and 12 in-guide frames complete ALIGN once. -/
theorem C2_align_gate_witness :
    (start [] 0).state.alignedFrameCount = 0 ∧
    (alignRun faceC2 0 (List.replicate (ALIGN_REQUIRED_FRAMES - 1) true ++ [false])
      (start [] 0)).state.alignedFrameCount = 0 ∧
    (alignRun faceC2 0 (List.replicate ALIGN_REQUIRED_FRAMES true)
      (start [] 0)).state.completedSteps = [LivenessStep.ALIGN] :=
  ⟨by decide, (C2_align_gate faceC2 0 (start [] 0) (by decide)).1,
    (C2_align_gate faceC2 0 (start [] 0) (by decide)).2.2.2.2.1⟩
